import Mathlib

/-!
# Verification of the FHIR Patient resource API

Shallow embedding of `therapieland/patients`: the `Patient` model row
(`models.py`), the FHIR codec `PatientSerializer.to_representation` /
`PatientSerializer.to_internal_value` (`serializer.py`), the structural
validator `FHIRValidator.validate_patient` (`validators.py`) and the five
request handlers (`views.py`).

JSON documents are modelled by the inductive `JVal`; a JSON object is an
association list `List (String × JVal)` (Python `dict` with unique keys;
lookup returns the first binding).  Dates, UUIDs and URLs travel as
strings, matching their wire form (`birth_date.isoformat()`, `str(id)`).
Where the Python code would raise a `TypeError` on a structurally
impossible value (e.g. `len()` of a non-list), the embedding totalises by
treating the value as an empty array / empty object, which skips the
branch; no claim below depends on those paths.
-/

/-- A JSON value: string, boolean, number, array or object. -/
inductive JVal : Type where
  | jstr : String → JVal
  | jbool : Bool → JVal
  | jnat : Nat → JVal
  | jarr : List JVal → JVal
  | jobj : List (String × JVal) → JVal
deriving Repr

/-- Dictionary lookup: the value bound to `key`, if any (Python `d[key]` / `key in d`). -/
def jlookup : List (String × JVal) → String → Option JVal
  | [], _ => none
  | (k, v) :: rest, key => if k = key then some v else jlookup rest key

/-- Dictionary update `d[key] = v`: replace the existing binding or append a new one. -/
def setKey : List (String × JVal) → String → JVal → List (String × JVal)
  | [], k, v => [(k, v)]
  | (k0, v0) :: rest, k, v =>
      if k0 = k then (k0, v) :: rest else (k0, v0) :: setKey rest k v

/-- `d.get key dflt` (Python `dict.get` with a default). -/
def objGet (o : List (String × JVal)) (key : String) (dflt : JVal) : JVal :=
  (jlookup o key).getD dflt

/-- View a JSON value as an array; non-arrays give `[]` (see module comment). -/
def asArr : JVal → List JVal
  | .jarr l => l
  | _ => []

/-- View a JSON value as an object; non-objects give `[]` (see module comment). -/
def asObjL : JVal → List (String × JVal)
  | .jobj o => o
  | _ => []

/-- Extract a string, if the value is one. -/
def JVal.asString : JVal → Option String
  | .jstr s => some s
  | _ => none

/-- Extract a boolean, if the value is one. -/
def JVal.asBool : JVal → Option Bool
  | .jbool b => some b
  | _ => none

/-- Extract the strings of a list of JSON values, if all are strings. -/
def asStrings : List JVal → Option (List String)
  | [] => some []
  | v :: rest =>
    match v.asString, asStrings rest with
    | some s, some l => some (s :: l)
    | _, _ => none

/-- Extract a list of strings, if the value is an array of strings. -/
def JVal.asStringList : JVal → Option (List String)
  | .jarr l => asStrings l
  | _ => none

/-- The internal flat patient record (`models.Patient`, one row per patient).
`id` is the string form of the UUID, `birth_date` the ISO-8601 date string,
`created_at`/`updated_at` storage timestamps.  `namePrefix`/`nameSuffix`
embed the model's `prefix`/`suffix` character fields. -/
structure Patient where
  id : String
  active : Bool
  name_use : String
  family_name : String
  given_names : List String
  namePrefix : String
  nameSuffix : String
  telecom_phone : String
  telecom_email : String
  gender : String
  birth_date : String
  address_use : String
  address_line : List String
  address_city : String
  address_district : String
  address_state : String
  address_postal_code : String
  address_country : String
  identifier_use : String
  identifier_system : String
  identifier_value : String
  created_at : Nat
  updated_at : Nat
deriving Repr

/-- The single `name` array element of the encoded document: `use`, `family`,
`given` always; `prefix`/`suffix` as one-element arrays only when non-empty
(`serializer.py` lines 62-80). -/
def nameObject (r : Patient) : List (String × JVal) :=
  [("use", JVal.jstr r.name_use),
   ("family", JVal.jstr r.family_name),
   ("given", JVal.jarr (r.given_names.map JVal.jstr))]
  ++ (if r.namePrefix ≠ "" then [("prefix", JVal.jarr [JVal.jstr r.namePrefix])] else [])
  ++ (if r.nameSuffix ≠ "" then [("suffix", JVal.jarr [JVal.jstr r.nameSuffix])] else [])

/-- The encoded `telecom` array: a phone entry iff `telecom_phone` is
non-empty, then an email entry iff `telecom_email` is non-empty
(`serializer.py` lines 82-95). -/
def telecomList (r : Patient) : List JVal :=
  (if r.telecom_phone ≠ "" then
    [JVal.jobj [("system", JVal.jstr "phone"), ("value", JVal.jstr r.telecom_phone),
                ("use", JVal.jstr "home")]]
   else [])
  ++ (if r.telecom_email ≠ "" then
    [JVal.jobj [("system", JVal.jstr "email"), ("value", JVal.jstr r.telecom_email),
                ("use", JVal.jstr "home")]]
   else [])

/-- The guard of the encoder's address block: `any([instance.address_line,
instance.address_city, instance.address_state, instance.address_postal_code,
instance.address_country])` (`serializer.py` line 98; note `address_district`
does not appear in this list). -/
def hasAddressFields (r : Patient) : Prop :=
  r.address_line ≠ [] ∨ r.address_city ≠ "" ∨ r.address_state ≠ "" ∨
  r.address_postal_code ≠ "" ∨ r.address_country ≠ ""

instance (r : Patient) : Decidable (hasAddressFields r) := by
  unfold hasAddressFields; infer_instance

/-- The single encoded address object: each sub-field included iff non-empty
(`serializer.py` lines 100-114). -/
def addressObject (r : Patient) : List (String × JVal) :=
  (if r.address_use ≠ "" then [("use", JVal.jstr r.address_use)] else [])
  ++ (if r.address_line ≠ [] then [("line", JVal.jarr (r.address_line.map JVal.jstr))] else [])
  ++ (if r.address_city ≠ "" then [("city", JVal.jstr r.address_city)] else [])
  ++ (if r.address_district ≠ "" then [("district", JVal.jstr r.address_district)] else [])
  ++ (if r.address_state ≠ "" then [("state", JVal.jstr r.address_state)] else [])
  ++ (if r.address_postal_code ≠ "" then [("postalCode", JVal.jstr r.address_postal_code)] else [])
  ++ (if r.address_country ≠ "" then [("country", JVal.jstr r.address_country)] else [])

/-- The encoded `address` array: one entry when `hasAddressFields` holds,
else empty (`serializer.py` lines 97-116). -/
def addressList (r : Patient) : List JVal :=
  if hasAddressFields r then [JVal.jobj (addressObject r)] else []

/-- The encoded `identifier` array: one entry iff `identifier_value` is
non-empty; `value` always in the entry, `use`/`system` iff non-empty
(`serializer.py` lines 118-128). -/
def identifierList (r : Patient) : List JVal :=
  if r.identifier_value ≠ "" then
    [JVal.jobj ([("value", JVal.jstr r.identifier_value)]
      ++ (if r.identifier_use ≠ "" then [("use", JVal.jstr r.identifier_use)] else [])
      ++ (if r.identifier_system ≠ "" then [("system", JVal.jstr r.identifier_system)] else []))]
  else []

/-- `PatientSerializer.to_representation`: encode a record as a FHIR Patient
document (the resulting Python dict, in insertion order). -/
def to_representation (r : Patient) : List (String × JVal) :=
  [("resourceType", JVal.jstr "Patient"),
   ("id", JVal.jstr r.id),
   ("active", JVal.jbool r.active),
   ("name", JVal.jarr [JVal.jobj (nameObject r)]),
   ("telecom", JVal.jarr (telecomList r)),
   ("gender", JVal.jstr r.gender),
   ("birthDate", JVal.jstr r.birth_date),
   ("address", JVal.jarr (addressList r)),
   ("identifier", JVal.jarr (identifierList r))]

/-- Decoder block for `active`: copy the key when present (`serializer.py`
lines 137-138). -/
def decodeActive (v : Option JVal) (m : List (String × JVal)) : List (String × JVal) :=
  match v with
  | some a => setKey m "active" a
  | none => m

/-- Decoder block for `name`: read the first array element only; `use`,
`family`, `given` with defaults; `prefix`/`suffix` only when present with a
non-empty array (`serializer.py` lines 140-149). -/
def decodeName (v : Option JVal) (m : List (String × JVal)) : List (String × JVal) :=
  match v with
  | none => m
  | some nv =>
    match asArr nv with
    | [] => m
    | n0 :: _ =>
      let name := asObjL n0
      let m := setKey m "name_use" (objGet name "use" (JVal.jstr "usual"))
      let m := setKey m "family_name" (objGet name "family" (JVal.jstr ""))
      let m := setKey m "given_names" (objGet name "given" (JVal.jarr []))
      let m := match jlookup name "prefix" with
        | some pv =>
          match asArr pv with
          | [] => m
          | p0 :: _ => setKey m "prefix" p0
        | none => m
      match jlookup name "suffix" with
      | some sv =>
        match asArr sv with
        | [] => m
        | s0 :: _ => setKey m "suffix" s0
      | none => m

/-- One iteration of the decoder's telecom loop: an entry whose `system` is
`"phone"` (resp. `"email"`) overwrites `telecom_phone` (resp.
`telecom_email`) with its `value` (`serializer.py` lines 153-157). -/
def telecomStep (m : List (String × JVal)) (t : JVal) : List (String × JVal) :=
  let tel := asObjL t
  match jlookup tel "system" with
  | some (.jstr "phone") => setKey m "telecom_phone" (objGet tel "value" (JVal.jstr ""))
  | some (.jstr "email") => setKey m "telecom_email" (objGet tel "value" (JVal.jstr ""))
  | _ => m

/-- Decoder block for `telecom`: iterate over all entries
(`serializer.py` lines 152-157). -/
def decodeTelecom (v : Option JVal) (m : List (String × JVal)) : List (String × JVal) :=
  match v with
  | some tv => (asArr tv).foldl telecomStep m
  | none => m

/-- Decoder block for `gender` (`serializer.py` lines 160-161). -/
def decodeGender (v : Option JVal) (m : List (String × JVal)) : List (String × JVal) :=
  match v with
  | some g => setKey m "gender" g
  | none => m

/-- Decoder block for `birthDate` (`serializer.py` lines 162-163). -/
def decodeBirthDate (v : Option JVal) (m : List (String × JVal)) : List (String × JVal) :=
  match v with
  | some b => setKey m "birth_date" b
  | none => m

/-- Decoder block for `address`: read the first array element only; all seven
internal address fields are assigned, with defaults for absent sub-keys
(`serializer.py` lines 166-174). -/
def decodeAddress (v : Option JVal) (m : List (String × JVal)) : List (String × JVal) :=
  match v with
  | none => m
  | some av =>
    match asArr av with
    | [] => m
    | a0 :: _ =>
      let addr := asObjL a0
      let m := setKey m "address_use" (objGet addr "use" (JVal.jstr ""))
      let m := setKey m "address_line" (objGet addr "line" (JVal.jarr []))
      let m := setKey m "address_city" (objGet addr "city" (JVal.jstr ""))
      let m := setKey m "address_district" (objGet addr "district" (JVal.jstr ""))
      let m := setKey m "address_state" (objGet addr "state" (JVal.jstr ""))
      let m := setKey m "address_postal_code" (objGet addr "postalCode" (JVal.jstr ""))
      setKey m "address_country" (objGet addr "country" (JVal.jstr ""))

/-- Decoder block for `identifier`: read the first array element only; all
three internal identifier fields are assigned, with empty-string defaults
(`serializer.py` lines 177-181). -/
def decodeIdentifier (v : Option JVal) (m : List (String × JVal)) : List (String × JVal) :=
  match v with
  | none => m
  | some iv =>
    match asArr iv with
    | [] => m
    | i0 :: _ =>
      let idf := asObjL i0
      let m := setKey m "identifier_use" (objGet idf "use" (JVal.jstr ""))
      let m := setKey m "identifier_system" (objGet idf "system" (JVal.jstr ""))
      setKey m "identifier_value" (objGet idf "value" (JVal.jstr ""))

/-- `PatientSerializer.to_internal_value`: decode a FHIR Patient document into
the partial internal field dictionary, block by block in source order. -/
def to_internal_value (data : List (String × JVal)) : List (String × JVal) :=
  decodeIdentifier (jlookup data "identifier")
    (decodeAddress (jlookup data "address")
      (decodeBirthDate (jlookup data "birthDate")
        (decodeGender (jlookup data "gender")
          (decodeTelecom (jlookup data "telecom")
            (decodeName (jlookup data "name")
              (decodeActive (jlookup data "active") []))))))

/-- Partial-update merge: each internal field bound in the decoded dictionary
to a value of the field's shape overwrites the instance field, every other
field keeps its previous value.  Models the DRF `ModelSerializer` save with
`partial=True` (`views.py` line 261) composed with the framework's
field-typed `to_internal_value`; `id`, `created_at` and `updated_at` are
read-only and never written by the merge. -/
def applyPartial (r : Patient) (m : List (String × JVal)) : Patient :=
  { r with
    active := ((jlookup m "active").bind JVal.asBool).getD r.active
    name_use := ((jlookup m "name_use").bind JVal.asString).getD r.name_use
    family_name := ((jlookup m "family_name").bind JVal.asString).getD r.family_name
    given_names := ((jlookup m "given_names").bind JVal.asStringList).getD r.given_names
    namePrefix := ((jlookup m "prefix").bind JVal.asString).getD r.namePrefix
    nameSuffix := ((jlookup m "suffix").bind JVal.asString).getD r.nameSuffix
    telecom_phone := ((jlookup m "telecom_phone").bind JVal.asString).getD r.telecom_phone
    telecom_email := ((jlookup m "telecom_email").bind JVal.asString).getD r.telecom_email
    gender := ((jlookup m "gender").bind JVal.asString).getD r.gender
    birth_date := ((jlookup m "birth_date").bind JVal.asString).getD r.birth_date
    address_use := ((jlookup m "address_use").bind JVal.asString).getD r.address_use
    address_line := ((jlookup m "address_line").bind JVal.asStringList).getD r.address_line
    address_city := ((jlookup m "address_city").bind JVal.asString).getD r.address_city
    address_district := ((jlookup m "address_district").bind JVal.asString).getD r.address_district
    address_state := ((jlookup m "address_state").bind JVal.asString).getD r.address_state
    address_postal_code := ((jlookup m "address_postal_code").bind JVal.asString).getD r.address_postal_code
    address_country := ((jlookup m "address_country").bind JVal.asString).getD r.address_country
    identifier_use := ((jlookup m "identifier_use").bind JVal.asString).getD r.identifier_use
    identifier_system := ((jlookup m "identifier_system").bind JVal.asString).getD r.identifier_system
    identifier_value := ((jlookup m "identifier_value").bind JVal.asString).getD r.identifier_value }

/-- Is the value a JSON string? -/
def isStr : JVal → Bool
  | .jstr _ => true
  | _ => false

/-- Is the value a JSON array of strings? -/
def isStrArr : JVal → Bool
  | .jarr l => l.all isStr
  | _ => false

/-- Is the value a string drawn from the given enumeration? -/
def memEnum (choices : List String) : JVal → Bool
  | .jstr s => choices.contains s
  | _ => false

/-- Modelled from the spec: the external FHIR library's structural check of a
`HumanName` element (the `fhir.resources` pydantic model is not part of the
repository).  Accepts the sub-keys the repository uses, each with its wire
shape; unknown sub-keys are rejected, as pydantic forbids extra fields. -/
def validHumanName : JVal → Bool
  | .jobj o => o.all fun kv =>
      if kv.1 = "use" then
        memEnum ["usual", "official", "temp", "nickname", "anonymous", "old", "maiden"] kv.2
      else if kv.1 = "family" then isStr kv.2
      else if kv.1 = "given" then isStrArr kv.2
      else if kv.1 = "prefix" then isStrArr kv.2
      else if kv.1 = "suffix" then isStrArr kv.2
      else false
  | _ => false

/-- Modelled from the spec: structural check of a `ContactPoint` element. -/
def validContactPoint : JVal → Bool
  | .jobj o => o.all fun kv =>
      if kv.1 = "system" then
        memEnum ["phone", "fax", "email", "pager", "url", "sms", "other"] kv.2
      else if kv.1 = "value" then isStr kv.2
      else if kv.1 = "use" then
        memEnum ["home", "work", "temp", "old", "mobile"] kv.2
      else false
  | _ => false

/-- Modelled from the spec: structural check of an `Address` element. -/
def validAddress : JVal → Bool
  | .jobj o => o.all fun kv =>
      if kv.1 = "use" then memEnum ["home", "work", "temp", "old", "billing"] kv.2
      else if kv.1 = "line" then isStrArr kv.2
      else if kv.1 = "city" then isStr kv.2
      else if kv.1 = "district" then isStr kv.2
      else if kv.1 = "state" then isStr kv.2
      else if kv.1 = "postalCode" then isStr kv.2
      else if kv.1 = "country" then isStr kv.2
      else false
  | _ => false

/-- Modelled from the spec: structural check of an `Identifier` element. -/
def validIdentifier : JVal → Bool
  | .jobj o => o.all fun kv =>
      if kv.1 = "use" then memEnum ["usual", "official", "temp", "secondary"] kv.2
      else if kv.1 = "system" then isStr kv.2
      else if kv.1 = "value" then isStr kv.2
      else false
  | _ => false

/-- Modelled from the spec: the structural validation performed by
constructing the external library's FHIR `Patient` model (`FHIRPatient(**
fhir_data)` in `validators.py`, the library itself not being part of the
repository): every present key must be a known Patient key carrying a value
of its wire shape. -/
def isPatientShape (o : List (String × JVal)) : Bool :=
  o.all fun kv =>
    if kv.1 = "resourceType" then isStr kv.2
    else if kv.1 = "id" then isStr kv.2
    else if kv.1 = "active" then (match kv.2 with | .jbool _ => true | _ => false)
    else if kv.1 = "name" then (match kv.2 with | .jarr l => l.all validHumanName | _ => false)
    else if kv.1 = "telecom" then (match kv.2 with | .jarr l => l.all validContactPoint | _ => false)
    else if kv.1 = "gender" then memEnum ["male", "female", "other", "unknown"] kv.2
    else if kv.1 = "birthDate" then isStr kv.2
    else if kv.1 = "address" then (match kv.2 with | .jarr l => l.all validAddress | _ => false)
    else if kv.1 = "identifier" then (match kv.2 with | .jarr l => l.all validIdentifier | _ => false)
    else false

/-- Is the `name` attribute falsy after construction (absent, or an empty
array)?  Python `not fhir_patient.name`. -/
def nameFalsy (v : Option JVal) : Bool :=
  match v with
  | none => true
  | some (.jarr []) => true
  | some _ => false

/-- `FHIRValidator.validate_patient`: copy the document, force
`resourceType = "Patient"`, run the structural check (the library model
construction), then the three explicit required-field checks in source
order; return the normalized document on success (`validators.py` 8-28). -/
def validate_patient (data : List (String × JVal)) : Except String (List (String × JVal)) :=
  let fhir := setKey data "resourceType" (JVal.jstr "Patient")
  if isPatientShape fhir then
    if nameFalsy (jlookup fhir "name") then
      .error "Patient must have at least one name"
    else if (jlookup fhir "gender").isNone then
      .error "Patient must have a gender specified"
    else if (jlookup fhir "birthDate").isNone then
      .error "Patient must have a birth date"
    else
      .ok fhir
  else
    .error "Invalid FHIR Patient resource"

/-- Did validation succeed? -/
def validateOk (e : Except String (List (String × JVal))) : Bool :=
  match e with
  | .ok _ => true
  | .error _ => false

/-- Field-level validity of one decoded internal field, modelling the DRF
`ModelSerializer` field validation against `models.py`: enum choices for the
`use` and `gender` fields, value shapes for the rest.  String-format checks
(date, e-mail, URL) are abstracted to the string shape. -/
def validField (k : String) (v : JVal) : Bool :=
  if k = "active" then (match v with | .jbool _ => true | _ => false)
  else if k = "name_use" then
    memEnum ["usual", "official", "temp", "nickname", "anonymous", "old", "maiden"] v
  else if k = "family_name" then (match v with | .jstr s => s != "" | _ => false)
  else if k = "given_names" then isStrArr v
  else if k = "prefix" then isStr v
  else if k = "suffix" then isStr v
  else if k = "telecom_phone" then isStr v
  else if k = "telecom_email" then isStr v
  else if k = "gender" then memEnum ["male", "female", "other", "unknown"] v
  else if k = "birth_date" then isStr v
  else if k = "address_use" then
    (match v with | .jstr s => s == "" || ["home", "work", "temp", "old", "billing"].contains s
                  | _ => false)
  else if k = "address_line" then isStrArr v
  else if k = "address_city" then isStr v
  else if k = "address_district" then isStr v
  else if k = "address_state" then isStr v
  else if k = "address_postal_code" then isStr v
  else if k = "address_country" then isStr v
  else if k = "identifier_use" then
    (match v with | .jstr s => s == "" || ["usual", "official", "temp", "secondary"].contains s
                  | _ => false)
  else if k = "identifier_system" then isStr v
  else if k = "identifier_value" then isStr v
  else true

/-- Are all decoded fields valid (the `serializer.is_valid()` outcome for a
partial update, where no field is required)? -/
def partialValid (m : List (String × JVal)) : Bool :=
  m.all fun kv => validField kv.1 kv.2

/-- The DRF error dictionary for the invalid fields: one entry per failing
field, keyed by the internal field name (messages abstracted). -/
def fieldErrors (m : List (String × JVal)) : List (String × JVal) :=
  (m.filter fun kv => !validField kv.1 kv.2).map fun kv => (kv.1, JVal.jarr [JVal.jstr "invalid"])

/-- `create_operation_outcome` (`views.py` 20-31). -/
def create_operation_outcome (severity code details : String) : JVal :=
  JVal.jobj
    [("resourceType", JVal.jstr "OperationOutcome"),
     ("issue", JVal.jarr
       [JVal.jobj [("severity", JVal.jstr severity), ("code", JVal.jstr code),
                   ("diagnostics", JVal.jstr details)]])]

/-- An HTTP response: status code and optional JSON body. -/
structure HttpResponse where
  status : Nat
  body : Option JVal
deriving Repr

/-- Is the body a FHIR OperationOutcome document of the shape
`{resourceType: "OperationOutcome", issue: [{severity, code, diagnostics}]}`? -/
def isOperationOutcome (j : JVal) : Bool :=
  match j with
  | .jobj o =>
    (match jlookup o "resourceType" with
     | some (.jstr "OperationOutcome") => true
     | _ => false)
    && (match jlookup o "issue" with
        | some (.jarr issues) =>
          !issues.isEmpty && issues.all fun i =>
            match i with
            | .jobj io =>
              (jlookup io "severity").isSome && (jlookup io "code").isSome &&
              (jlookup io "diagnostics").isSome
            | _ => false
        | _ => false)
  | _ => false

/-- Render the DRF error dictionary as the `str(serializer.errors)` text used
in diagnostics (abstracted to the failing field names). -/
def errorsString (errs : List (String × JVal)) : String :=
  String.intercalate ", " (errs.map Prod.fst)

/-- The serializer-required internal fields of a create (model fields with
neither a default nor `blank=True`): `family_name`, `gender`, `birth_date`. -/
def requiredPresent (m : List (String × JVal)) : Bool :=
  (jlookup m "family_name").isSome && (jlookup m "gender").isSome &&
  (jlookup m "birth_date").isSome

/-- `serializer.is_valid()` for a create (non-partial): required fields
present and every decoded field valid. -/
def createValid (m : List (String × JVal)) : Bool :=
  requiredPresent m && partialValid m

/-- A fresh model row before any decoded field is applied: Django column
defaults (`models.py`), the generated UUID and the storage timestamps. -/
def freshRecord (newId : String) (now : Nat) : Patient :=
  { id := newId, active := true, name_use := "usual", family_name := "",
    given_names := [], namePrefix := "", nameSuffix := "",
    telecom_phone := "", telecom_email := "", gender := "", birth_date := "",
    address_use := "", address_line := [], address_city := "",
    address_district := "", address_state := "", address_postal_code := "",
    address_country := "", identifier_use := "", identifier_system := "",
    identifier_value := "", created_at := now, updated_at := now }

/-- `create_patient` (`views.py` 116-135): FHIR validation, then serializer
validation; 201 with the encoded saved record, or 400 with an
OperationOutcome on either failure.  `newId` is the generated UUID, `now`
the storage timestamp. -/
def create_patient (data : List (String × JVal)) (newId : String) (now : Nat) : HttpResponse :=
  match validate_patient data with
  | .error e => ⟨400, some (create_operation_outcome "error" "invalid" e)⟩
  | .ok _ =>
    let m := to_internal_value data
    if createValid m then
      ⟨201, some (JVal.jobj (to_representation (applyPartial (freshRecord newId now) m)))⟩
    else
      ⟨400, some (create_operation_outcome "error" "invalid" (errorsString (fieldErrors m)))⟩

/-- `fhir_exception_handler` (`therapieland/utils.py`): whenever the
framework's exception pipeline produced an error response for a raised
exception, its body is replaced by a processing OperationOutcome carrying
the exception text.  Responses the views return directly (the handlers'
`Response(...)` returns) never pass through here. -/
def fhir_exception_handler (status : Nat) (excText : String) : HttpResponse :=
  ⟨status, some (create_operation_outcome "error" "processing" excText)⟩

/-- The not-found response of the id-based handlers: `get_object_or_404`
raises `Http404("No Patient matches the given query.")`, the framework maps
it to a 404 and `fhir_exception_handler` rewrites the body into a
processing OperationOutcome. -/
def notFound404 : HttpResponse :=
  fhir_exception_handler 404 "No Patient matches the given query."

/-- `get_patient` (`views.py` 207-220): 400 with an `{"error": ...}` body on
a malformed id (a direct return, bypassing the exception pipeline); 404 via
the raised `Http404`, whose body `fhir_exception_handler` rewrites, when
the id is unknown; else 200 with the encoded record. -/
def get_patient (store : List Patient) (wellformedId : Bool) (pid : String) : HttpResponse :=
  if !wellformedId then
    ⟨400, some (JVal.jobj [("error", JVal.jstr "Invalid patient ID format")])⟩
  else
    match store.find? (fun r => r.id == pid) with
    | none => notFound404
    | some r => ⟨200, some (JVal.jobj (to_representation r))⟩

/-- `update_patient` (`views.py` 254-270): 400 with `{"error": ...}` on a
malformed id (direct return), 404 via the rewritten `Http404` when unknown,
400 with the raw `serializer.errors` dictionary (direct return) when the
decoded fields are invalid, else 200 with the encoding of the merged
record. -/
def update_patient (store : List Patient) (wellformedId : Bool) (pid : String)
    (data : List (String × JVal)) : HttpResponse :=
  if !wellformedId then
    ⟨400, some (JVal.jobj [("error", JVal.jstr "Invalid patient ID format")])⟩
  else
    match store.find? (fun r => r.id == pid) with
    | none => notFound404
    | some r =>
      let m := to_internal_value data
      if partialValid m then
        ⟨200, some (JVal.jobj (to_representation (applyPartial r m)))⟩
      else
        ⟨400, some (JVal.jobj (fieldErrors m))⟩

/-- `delete_patient` (`views.py` 300-313): 400 on a malformed id (direct
return), 404 via the rewritten `Http404` when unknown, else 204 with an
empty body. -/
def delete_patient (store : List Patient) (wellformedId : Bool) (pid : String) : HttpResponse :=
  if !wellformedId then
    ⟨400, some (JVal.jobj [("error", JVal.jstr "Invalid patient ID format")])⟩
  else
    match store.find? (fun r => r.id == pid) with
    | none => notFound404
    | some _ => ⟨204, none⟩

/-- The record store's read order (`Patient.Meta.ordering = ['-created_at']`):
newest creation timestamp first. -/
def fetchAll (store : List Patient) : List Patient :=
  store.insertionSort fun a b => b.created_at ≤ a.created_at

/-- `list_patients` (`views.py` 151-173): 200 with a Bundle whose `total` is
the record count and whose `entry` wraps each encoded record in read order. -/
def list_patients (store : List Patient) : HttpResponse :=
  ⟨200, some (JVal.jobj
    [("resourceType", JVal.jstr "Bundle"),
     ("id", JVal.jstr "patient-search-results"),
     ("type", JVal.jstr "searchset"),
     ("total", JVal.jnat store.length),
     ("entry", JVal.jarr ((fetchAll store).map fun p =>
        JVal.jobj [("resource", JVal.jobj (to_representation p))]))])⟩

/-! ## Dictionary lemmas -/

theorem jlookup_setKey_same (m : List (String × JVal)) (k : String) (v : JVal) :
    jlookup (setKey m k v) k = some v := by
  induction m with
  | nil => simp [setKey, jlookup]
  | cons kv rest ih =>
    obtain ⟨k0, v0⟩ := kv
    by_cases h : k0 = k
    · simp [setKey, h, jlookup]
    · simp [setKey, h, jlookup, ih]

theorem jlookup_setKey_ne (m : List (String × JVal)) (k k' : String) (v : JVal)
    (h : k ≠ k') : jlookup (setKey m k' v) k = jlookup m k := by
  induction m with
  | nil =>
    simp only [setKey, jlookup]
    rw [if_neg (Ne.symm h)]
  | cons kv rest ih =>
    obtain ⟨k0, v0⟩ := kv
    by_cases h0 : k0 = k'
    · subst h0
      simp only [setKey, if_pos rfl, jlookup]
      rw [if_neg (Ne.symm h), if_neg (Ne.symm h)]
    · simp only [setKey, if_neg h0, jlookup, ih]

theorem jlookup_append_of_some (l1 l2 : List (String × JVal)) (k : String) (v : JVal)
    (h : jlookup l1 k = some v) : jlookup (l1 ++ l2) k = some v := by
  induction l1 with
  | nil => simp [jlookup] at h
  | cons kv rest ih =>
    obtain ⟨k0, v0⟩ := kv
    by_cases h0 : k0 = k <;> simp_all [jlookup]

theorem jlookup_append_of_none (l1 l2 : List (String × JVal)) (k : String)
    (h : jlookup l1 k = none) : jlookup (l1 ++ l2) k = jlookup l2 k := by
  induction l1 with
  | nil => simp [jlookup]
  | cons kv rest ih =>
    obtain ⟨k0, v0⟩ := kv
    by_cases h0 : k0 = k <;> simp_all [jlookup]

/-- Looking past a conditional one-binding segment whose key differs. -/
theorem jlookup_iteSeg_ne (c : Prop) [Decidable c] (k1 k : String) (v1 : JVal)
    (rest : List (String × JVal)) (h : k1 ≠ k) :
    jlookup ((if c then [(k1, v1)] else []) ++ rest) k = jlookup rest k := by
  split <;> simp [jlookup, h]

/-- Looking past a conditional one-binding segment (negated condition) whose
key differs. -/
theorem jlookup_iteSegN_ne (c : Prop) [Decidable c] (k1 k : String) (v1 : JVal)
    (rest : List (String × JVal)) (h : k1 ≠ k) :
    jlookup ((if c then [] else [(k1, v1)]) ++ rest) k = jlookup rest k := by
  split <;> simp [jlookup, h]

/-- Looking up the key of a conditional one-binding segment. -/
theorem jlookup_iteSeg_hit (c : Prop) [Decidable c] (k : String) (v : JVal)
    (rest : List (String × JVal)) :
    jlookup ((if c then [(k, v)] else []) ++ rest) k =
      if c then some v else jlookup rest k := by
  split <;> simp [jlookup]

/-- Looking up the key of a conditional one-binding segment (negated
condition). -/
theorem jlookup_iteSegN_hit (c : Prop) [Decidable c] (k : String) (v : JVal)
    (rest : List (String × JVal)) :
    jlookup ((if c then [] else [(k, v)]) ++ rest) k =
      if c then jlookup rest k else some v := by
  split <;> simp [jlookup]

/-- Looking past a trailing conditional one-binding segment whose key differs. -/
theorem jlookup_iteLast_ne (c : Prop) [Decidable c] (k1 k : String) (v1 : JVal)
    (h : k1 ≠ k) :
    jlookup (if c then [(k1, v1)] else []) k = none := by
  split <;> simp [jlookup, h]

/-- Looking past a trailing conditional one-binding segment (negated
condition) whose key differs. -/
theorem jlookup_iteLastN_ne (c : Prop) [Decidable c] (k1 k : String) (v1 : JVal)
    (h : k1 ≠ k) :
    jlookup (if c then [] else [(k1, v1)]) k = none := by
  split <;> simp [jlookup, h]

/-- Looking up the key of a trailing conditional one-binding segment. -/
theorem jlookup_iteLast_hit (c : Prop) [Decidable c] (k : String) (v : JVal) :
    jlookup (if c then [(k, v)] else []) k = if c then some v else none := by
  split <;> simp [jlookup]

/-- Looking up the key of a trailing conditional one-binding segment (negated
condition). -/
theorem jlookup_iteLastN_hit (c : Prop) [Decidable c] (k : String) (v : JVal) :
    jlookup (if c then [] else [(k, v)]) k = if c then none else some v := by
  split <;> simp [jlookup]

/-! ## Lookups inside the encoded nested objects -/

theorem nameObject_use (r : Patient) :
    jlookup (nameObject r) "use" = some (JVal.jstr r.name_use) := by
  simp [nameObject, jlookup]

theorem nameObject_family (r : Patient) :
    jlookup (nameObject r) "family" = some (JVal.jstr r.family_name) := by
  simp [nameObject, jlookup]

theorem nameObject_given (r : Patient) :
    jlookup (nameObject r) "given" = some (JVal.jarr (r.given_names.map JVal.jstr)) := by
  simp [nameObject, jlookup]

theorem nameObject_prefixVal (r : Patient) :
    jlookup (nameObject r) "prefix" =
      if r.namePrefix = "" then none else some (JVal.jarr [JVal.jstr r.namePrefix]) := by
  by_cases h : r.namePrefix = "" <;>
    simp [nameObject, jlookup, h, jlookup_iteSeg_ne, jlookup_iteSeg_hit, jlookup_iteSegN_ne, jlookup_iteSegN_hit, jlookup_iteLast_ne, jlookup_iteLastN_ne, jlookup_iteLast_hit, jlookup_iteLastN_hit]

theorem nameObject_suffix (r : Patient) :
    jlookup (nameObject r) "suffix" =
      if r.nameSuffix = "" then none else some (JVal.jarr [JVal.jstr r.nameSuffix]) := by
  by_cases hp : r.namePrefix = "" <;> by_cases hs : r.nameSuffix = "" <;>
    simp [nameObject, jlookup, hp, hs]

theorem addressObject_get_use (r : Patient) :
    objGet (addressObject r) "use" (JVal.jstr "") = JVal.jstr r.address_use := by
  by_cases h : r.address_use = "" <;>
    simp [addressObject, objGet, jlookup, h, jlookup_iteSeg_ne, jlookup_iteSeg_hit, jlookup_iteSegN_ne, jlookup_iteSegN_hit, jlookup_iteLast_ne, jlookup_iteLastN_ne, jlookup_iteLast_hit, jlookup_iteLastN_hit]

theorem addressObject_get_line (r : Patient) :
    objGet (addressObject r) "line" (JVal.jarr []) =
      JVal.jarr (r.address_line.map JVal.jstr) := by
  by_cases h : r.address_line = ([] : List String) <;>
    simp [addressObject, objGet, jlookup, h, jlookup_iteSeg_ne, jlookup_iteSeg_hit, jlookup_iteSegN_ne, jlookup_iteSegN_hit, jlookup_iteLast_ne, jlookup_iteLastN_ne, jlookup_iteLast_hit, jlookup_iteLastN_hit]

theorem addressObject_get_city (r : Patient) :
    objGet (addressObject r) "city" (JVal.jstr "") = JVal.jstr r.address_city := by
  by_cases h : r.address_city = "" <;>
    simp [addressObject, objGet, jlookup, h, jlookup_iteSeg_ne, jlookup_iteSeg_hit, jlookup_iteSegN_ne, jlookup_iteSegN_hit, jlookup_iteLast_ne, jlookup_iteLastN_ne, jlookup_iteLast_hit, jlookup_iteLastN_hit]

theorem addressObject_get_district (r : Patient) :
    objGet (addressObject r) "district" (JVal.jstr "") = JVal.jstr r.address_district := by
  by_cases h : r.address_district = "" <;>
    simp [addressObject, objGet, jlookup, h, jlookup_iteSeg_ne, jlookup_iteSeg_hit, jlookup_iteSegN_ne, jlookup_iteSegN_hit, jlookup_iteLast_ne, jlookup_iteLastN_ne, jlookup_iteLast_hit, jlookup_iteLastN_hit]

theorem addressObject_get_state (r : Patient) :
    objGet (addressObject r) "state" (JVal.jstr "") = JVal.jstr r.address_state := by
  by_cases h : r.address_state = "" <;>
    simp [addressObject, objGet, jlookup, h, jlookup_iteSeg_ne, jlookup_iteSeg_hit, jlookup_iteSegN_ne, jlookup_iteSegN_hit, jlookup_iteLast_ne, jlookup_iteLastN_ne, jlookup_iteLast_hit, jlookup_iteLastN_hit]

theorem addressObject_get_postalCode (r : Patient) :
    objGet (addressObject r) "postalCode" (JVal.jstr "") =
      JVal.jstr r.address_postal_code := by
  by_cases h : r.address_postal_code = "" <;>
    simp [addressObject, objGet, jlookup, h, jlookup_iteSeg_ne, jlookup_iteSeg_hit, jlookup_iteSegN_ne, jlookup_iteSegN_hit, jlookup_iteLast_ne, jlookup_iteLastN_ne, jlookup_iteLast_hit, jlookup_iteLastN_hit]

theorem addressObject_get_country (r : Patient) :
    objGet (addressObject r) "country" (JVal.jstr "") = JVal.jstr r.address_country := by
  by_cases h : r.address_country = "" <;>
    simp [addressObject, objGet, jlookup, h, jlookup_iteSeg_ne, jlookup_iteSeg_hit, jlookup_iteSegN_ne, jlookup_iteSegN_hit, jlookup_iteLast_ne, jlookup_iteLastN_ne, jlookup_iteLast_hit, jlookup_iteLastN_hit]

/-- The encoded identifier entry, when present. -/
def identifierObject (r : Patient) : List (String × JVal) :=
  [("value", JVal.jstr r.identifier_value)]
  ++ (if r.identifier_use ≠ "" then [("use", JVal.jstr r.identifier_use)] else [])
  ++ (if r.identifier_system ≠ "" then [("system", JVal.jstr r.identifier_system)] else [])

theorem identifierList_eq (r : Patient) :
    identifierList r =
      if r.identifier_value ≠ "" then [JVal.jobj (identifierObject r)] else [] := by
  simp [identifierList, identifierObject]

theorem identifierObject_get_use (r : Patient) :
    objGet (identifierObject r) "use" (JVal.jstr "") = JVal.jstr r.identifier_use := by
  by_cases h : r.identifier_use = "" <;>
    simp [identifierObject, objGet, jlookup, h, jlookup_iteSeg_ne, jlookup_iteSeg_hit, jlookup_iteSegN_ne, jlookup_iteSegN_hit, jlookup_iteLast_ne, jlookup_iteLastN_ne, jlookup_iteLast_hit, jlookup_iteLastN_hit]

theorem identifierObject_get_system (r : Patient) :
    objGet (identifierObject r) "system" (JVal.jstr "") = JVal.jstr r.identifier_system := by
  by_cases h : r.identifier_system = "" <;>
    simp [identifierObject, objGet, jlookup, h, jlookup_iteSeg_ne, jlookup_iteSeg_hit, jlookup_iteSegN_ne, jlookup_iteSegN_hit, jlookup_iteLast_ne, jlookup_iteLastN_ne, jlookup_iteLast_hit, jlookup_iteLastN_hit]

theorem identifierObject_get_value (r : Patient) :
    objGet (identifierObject r) "value" (JVal.jstr "") = JVal.jstr r.identifier_value := by
  simp [identifierObject, objGet, jlookup]

/-! ## Frame lemmas: each decoder block writes only its own field keys -/

theorem decodeActive_frame (v : Option JVal) (m : List (String × JVal)) (k : String)
    (h : k ≠ "active") : jlookup (decodeActive v m) k = jlookup m k := by
  cases v <;> simp [decodeActive, jlookup_setKey_ne _ _ _ _ h]

theorem decodeName_frame (v : Option JVal) (m : List (String × JVal)) (k : String)
    (h1 : k ≠ "name_use") (h2 : k ≠ "family_name") (h3 : k ≠ "given_names")
    (h4 : k ≠ "prefix") (h5 : k ≠ "suffix") :
    jlookup (decodeName v m) k = jlookup m k := by
  cases v with
  | none => rfl
  | some nv =>
    cases h : asArr nv with
    | nil => simp [decodeName, h]
    | cons n0 rest =>
      simp only [decodeName, h]
      repeat' split
      all_goals
        simp [jlookup_setKey_ne _ _ _ _ h1, jlookup_setKey_ne _ _ _ _ h2,
              jlookup_setKey_ne _ _ _ _ h3, jlookup_setKey_ne _ _ _ _ h4,
              jlookup_setKey_ne _ _ _ _ h5]

theorem telecomStep_frame (m : List (String × JVal)) (t : JVal) (k : String)
    (h1 : k ≠ "telecom_phone") (h2 : k ≠ "telecom_email") :
    jlookup (telecomStep m t) k = jlookup m k := by
  simp only [telecomStep]
  repeat' split
  all_goals
    simp [jlookup_setKey_ne _ _ _ _ h1, jlookup_setKey_ne _ _ _ _ h2]

theorem foldl_telecomStep_frame (l : List JVal) (m : List (String × JVal)) (k : String)
    (h1 : k ≠ "telecom_phone") (h2 : k ≠ "telecom_email") :
    jlookup (List.foldl telecomStep m l) k = jlookup m k := by
  induction l generalizing m with
  | nil => rfl
  | cons t rest ih => simp [List.foldl, ih, telecomStep_frame _ _ _ h1 h2]

theorem decodeTelecom_frame (v : Option JVal) (m : List (String × JVal)) (k : String)
    (h1 : k ≠ "telecom_phone") (h2 : k ≠ "telecom_email") :
    jlookup (decodeTelecom v m) k = jlookup m k := by
  cases v <;> simp [decodeTelecom, foldl_telecomStep_frame _ _ _ h1 h2]

theorem decodeGender_frame (v : Option JVal) (m : List (String × JVal)) (k : String)
    (h : k ≠ "gender") : jlookup (decodeGender v m) k = jlookup m k := by
  cases v <;> simp [decodeGender, jlookup_setKey_ne _ _ _ _ h]

theorem decodeBirthDate_frame (v : Option JVal) (m : List (String × JVal)) (k : String)
    (h : k ≠ "birth_date") : jlookup (decodeBirthDate v m) k = jlookup m k := by
  cases v <;> simp [decodeBirthDate, jlookup_setKey_ne _ _ _ _ h]

theorem decodeAddress_frame (v : Option JVal) (m : List (String × JVal)) (k : String)
    (h1 : k ≠ "address_use") (h2 : k ≠ "address_line") (h3 : k ≠ "address_city")
    (h4 : k ≠ "address_district") (h5 : k ≠ "address_state")
    (h6 : k ≠ "address_postal_code") (h7 : k ≠ "address_country") :
    jlookup (decodeAddress v m) k = jlookup m k := by
  cases v with
  | none => rfl
  | some av =>
    cases h : asArr av with
    | nil => simp [decodeAddress, h]
    | cons a0 rest =>
      simp [decodeAddress, h,
            jlookup_setKey_ne _ _ _ _ h1, jlookup_setKey_ne _ _ _ _ h2,
            jlookup_setKey_ne _ _ _ _ h3, jlookup_setKey_ne _ _ _ _ h4,
            jlookup_setKey_ne _ _ _ _ h5, jlookup_setKey_ne _ _ _ _ h6,
            jlookup_setKey_ne _ _ _ _ h7]

theorem decodeIdentifier_frame (v : Option JVal) (m : List (String × JVal)) (k : String)
    (h1 : k ≠ "identifier_use") (h2 : k ≠ "identifier_system")
    (h3 : k ≠ "identifier_value") :
    jlookup (decodeIdentifier v m) k = jlookup m k := by
  cases v with
  | none => rfl
  | some iv =>
    cases h : asArr iv with
    | nil => simp [decodeIdentifier, h]
    | cons i0 rest =>
      simp [decodeIdentifier, h,
            jlookup_setKey_ne _ _ _ _ h1, jlookup_setKey_ne _ _ _ _ h2,
            jlookup_setKey_ne _ _ _ _ h3]

/-! ## Lookups at the top level of the encoded document -/

theorem repr_resourceType (r : Patient) :
    jlookup (to_representation r) "resourceType" = some (JVal.jstr "Patient") := by
  simp [to_representation, jlookup]

theorem repr_id (r : Patient) :
    jlookup (to_representation r) "id" = some (JVal.jstr r.id) := by
  simp [to_representation, jlookup]

theorem repr_active (r : Patient) :
    jlookup (to_representation r) "active" = some (JVal.jbool r.active) := by
  simp [to_representation, jlookup]

theorem repr_name (r : Patient) :
    jlookup (to_representation r) "name" =
      some (JVal.jarr [JVal.jobj (nameObject r)]) := by
  simp [to_representation, jlookup]

theorem repr_telecom (r : Patient) :
    jlookup (to_representation r) "telecom" = some (JVal.jarr (telecomList r)) := by
  simp [to_representation, jlookup]

theorem repr_gender (r : Patient) :
    jlookup (to_representation r) "gender" = some (JVal.jstr r.gender) := by
  simp [to_representation, jlookup]

theorem repr_birthDate (r : Patient) :
    jlookup (to_representation r) "birthDate" = some (JVal.jstr r.birth_date) := by
  simp [to_representation, jlookup]

theorem repr_address (r : Patient) :
    jlookup (to_representation r) "address" = some (JVal.jarr (addressList r)) := by
  simp [to_representation, jlookup]

theorem repr_identifier (r : Patient) :
    jlookup (to_representation r) "identifier" = some (JVal.jarr (identifierList r)) := by
  simp [to_representation, jlookup]

/-! ## Decoder blocks applied to the encoder's output -/

theorem decodeName_enc (r : Patient) (m : List (String × JVal)) :
    decodeName (some (JVal.jarr [JVal.jobj (nameObject r)])) m =
      (let m1 := setKey m "name_use" (JVal.jstr r.name_use)
       let m2 := setKey m1 "family_name" (JVal.jstr r.family_name)
       let m3 := setKey m2 "given_names" (JVal.jarr (r.given_names.map JVal.jstr))
       let m4 := if r.namePrefix = "" then m3
                 else setKey m3 "prefix" (JVal.jstr r.namePrefix)
       if r.nameSuffix = "" then m4
       else setKey m4 "suffix" (JVal.jstr r.nameSuffix)) := by
  by_cases hp : r.namePrefix = "" <;> by_cases hs : r.nameSuffix = "" <;>
    simp [decodeName, asArr, asObjL, objGet, nameObject_use, nameObject_family,
          nameObject_given, nameObject_prefixVal, nameObject_suffix, hp, hs]

theorem decodeTelecom_enc_phone (r : Patient) (m : List (String × JVal)) :
    jlookup (decodeTelecom (some (JVal.jarr (telecomList r))) m) "telecom_phone" =
      if r.telecom_phone = "" then jlookup m "telecom_phone"
      else some (JVal.jstr r.telecom_phone) := by
  by_cases hp : r.telecom_phone = "" <;> by_cases he : r.telecom_email = "" <;>
    simp [decodeTelecom, telecomList, asArr, hp, he, telecomStep, asObjL, objGet,
          jlookup, jlookup_setKey_same, jlookup_setKey_ne]

theorem decodeTelecom_enc_email (r : Patient) (m : List (String × JVal)) :
    jlookup (decodeTelecom (some (JVal.jarr (telecomList r))) m) "telecom_email" =
      if r.telecom_email = "" then jlookup m "telecom_email"
      else some (JVal.jstr r.telecom_email) := by
  by_cases hp : r.telecom_phone = "" <;> by_cases he : r.telecom_email = "" <;>
    simp [decodeTelecom, telecomList, asArr, hp, he, telecomStep, asObjL, objGet,
          jlookup, jlookup_setKey_same, jlookup_setKey_ne]

theorem decodeAddress_enc (r : Patient) (m : List (String × JVal)) :
    decodeAddress (some (JVal.jarr (addressList r))) m =
      if hasAddressFields r then
        setKey (setKey (setKey (setKey (setKey (setKey (setKey m
          "address_use" (JVal.jstr r.address_use))
          "address_line" (JVal.jarr (r.address_line.map JVal.jstr)))
          "address_city" (JVal.jstr r.address_city))
          "address_district" (JVal.jstr r.address_district))
          "address_state" (JVal.jstr r.address_state))
          "address_postal_code" (JVal.jstr r.address_postal_code))
          "address_country" (JVal.jstr r.address_country)
      else m := by
  by_cases ha : hasAddressFields r <;>
    simp [decodeAddress, addressList, ha, asArr, asObjL,
          addressObject_get_use, addressObject_get_line, addressObject_get_city,
          addressObject_get_district, addressObject_get_state,
          addressObject_get_postalCode, addressObject_get_country]

theorem decodeIdentifier_enc (r : Patient) (m : List (String × JVal)) :
    decodeIdentifier (some (JVal.jarr (identifierList r))) m =
      if r.identifier_value = "" then m
      else
        setKey (setKey (setKey m
          "identifier_use" (JVal.jstr r.identifier_use))
          "identifier_system" (JVal.jstr r.identifier_system))
          "identifier_value" (JVal.jstr r.identifier_value) := by
  by_cases hi : r.identifier_value = "" <;>
    simp [decodeIdentifier, identifierList_eq, hi, asArr, asObjL,
          identifierObject_get_use, identifierObject_get_system,
          identifierObject_get_value]

/-! ## Per-field lookups in `to_internal_value (to_representation r)` -/

theorem dec_enc_active (r : Patient) :
    jlookup (to_internal_value (to_representation r)) "active" =
      some (JVal.jbool r.active) := by
  simp only [to_internal_value, repr_active, repr_name, repr_telecom, repr_gender,
             repr_birthDate, repr_address, repr_identifier]
  simp [decodeIdentifier_frame, decodeAddress_frame, decodeBirthDate_frame,
        decodeGender_frame, decodeTelecom_frame, decodeName_frame,
        decodeActive, jlookup_setKey_same]

theorem dec_enc_name_use (r : Patient) :
    jlookup (to_internal_value (to_representation r)) "name_use" =
      some (JVal.jstr r.name_use) := by
  simp only [to_internal_value, repr_active, repr_name, repr_telecom, repr_gender,
             repr_birthDate, repr_address, repr_identifier]
  by_cases hp : r.namePrefix = "" <;> by_cases hs : r.nameSuffix = "" <;>
    simp [hp, hs, decodeIdentifier_frame, decodeAddress_frame, decodeBirthDate_frame,
          decodeGender_frame, decodeTelecom_frame, decodeName_enc,
          jlookup_setKey_same, jlookup_setKey_ne]

theorem dec_enc_family_name (r : Patient) :
    jlookup (to_internal_value (to_representation r)) "family_name" =
      some (JVal.jstr r.family_name) := by
  simp only [to_internal_value, repr_active, repr_name, repr_telecom, repr_gender,
             repr_birthDate, repr_address, repr_identifier]
  by_cases hp : r.namePrefix = "" <;> by_cases hs : r.nameSuffix = "" <;>
    simp [hp, hs, decodeIdentifier_frame, decodeAddress_frame, decodeBirthDate_frame,
          decodeGender_frame, decodeTelecom_frame, decodeName_enc,
          jlookup_setKey_same, jlookup_setKey_ne]

theorem dec_enc_given_names (r : Patient) :
    jlookup (to_internal_value (to_representation r)) "given_names" =
      some (JVal.jarr (r.given_names.map JVal.jstr)) := by
  simp only [to_internal_value, repr_active, repr_name, repr_telecom, repr_gender,
             repr_birthDate, repr_address, repr_identifier]
  by_cases hp : r.namePrefix = "" <;> by_cases hs : r.nameSuffix = "" <;>
    simp [hp, hs, decodeIdentifier_frame, decodeAddress_frame, decodeBirthDate_frame,
          decodeGender_frame, decodeTelecom_frame, decodeName_enc,
          jlookup_setKey_same, jlookup_setKey_ne]

theorem dec_enc_prefixVal (r : Patient) :
    jlookup (to_internal_value (to_representation r)) "prefix" =
      if r.namePrefix = "" then none else some (JVal.jstr r.namePrefix) := by
  simp only [to_internal_value, repr_active, repr_name, repr_telecom, repr_gender,
             repr_birthDate, repr_address, repr_identifier]
  by_cases hp : r.namePrefix = "" <;> by_cases hs : r.nameSuffix = "" <;>
    simp [hp, hs, decodeIdentifier_frame, decodeAddress_frame, decodeBirthDate_frame,
          decodeGender_frame, decodeTelecom_frame, decodeName_enc,
          jlookup_setKey_same, jlookup_setKey_ne, decodeActive_frame, jlookup]

theorem dec_enc_suffix (r : Patient) :
    jlookup (to_internal_value (to_representation r)) "suffix" =
      if r.nameSuffix = "" then none else some (JVal.jstr r.nameSuffix) := by
  simp only [to_internal_value, repr_active, repr_name, repr_telecom, repr_gender,
             repr_birthDate, repr_address, repr_identifier]
  by_cases hp : r.namePrefix = "" <;> by_cases hs : r.nameSuffix = "" <;>
    simp [hp, hs, decodeIdentifier_frame, decodeAddress_frame, decodeBirthDate_frame,
          decodeGender_frame, decodeTelecom_frame, decodeName_enc,
          jlookup_setKey_same, jlookup_setKey_ne, decodeActive_frame, jlookup]

theorem dec_enc_telecom_phone (r : Patient) :
    jlookup (to_internal_value (to_representation r)) "telecom_phone" =
      if r.telecom_phone = "" then none else some (JVal.jstr r.telecom_phone) := by
  simp only [to_internal_value, repr_active, repr_name, repr_telecom, repr_gender,
             repr_birthDate, repr_address, repr_identifier]
  by_cases hp : r.telecom_phone = "" <;>
    simp [hp, decodeIdentifier_frame, decodeAddress_frame, decodeBirthDate_frame,
          decodeGender_frame, decodeTelecom_enc_phone, decodeName_frame,
          decodeActive_frame, jlookup]

theorem dec_enc_telecom_email (r : Patient) :
    jlookup (to_internal_value (to_representation r)) "telecom_email" =
      if r.telecom_email = "" then none else some (JVal.jstr r.telecom_email) := by
  simp only [to_internal_value, repr_active, repr_name, repr_telecom, repr_gender,
             repr_birthDate, repr_address, repr_identifier]
  by_cases he : r.telecom_email = "" <;>
    simp [he, decodeIdentifier_frame, decodeAddress_frame, decodeBirthDate_frame,
          decodeGender_frame, decodeTelecom_enc_email, decodeName_frame,
          decodeActive_frame, jlookup]

theorem dec_enc_gender (r : Patient) :
    jlookup (to_internal_value (to_representation r)) "gender" =
      some (JVal.jstr r.gender) := by
  simp only [to_internal_value, repr_active, repr_name, repr_telecom, repr_gender,
             repr_birthDate, repr_address, repr_identifier]
  simp [decodeIdentifier_frame, decodeAddress_frame, decodeBirthDate_frame,
        decodeGender, jlookup_setKey_same]

theorem dec_enc_birth_date (r : Patient) :
    jlookup (to_internal_value (to_representation r)) "birth_date" =
      some (JVal.jstr r.birth_date) := by
  simp only [to_internal_value, repr_active, repr_name, repr_telecom, repr_gender,
             repr_birthDate, repr_address, repr_identifier]
  simp [decodeIdentifier_frame, decodeAddress_frame, decodeBirthDate,
        jlookup_setKey_same]

theorem dec_enc_address_use (r : Patient) :
    jlookup (to_internal_value (to_representation r)) "address_use" =
      if hasAddressFields r then some (JVal.jstr r.address_use) else none := by
  simp only [to_internal_value, repr_active, repr_name, repr_telecom, repr_gender,
             repr_birthDate, repr_address, repr_identifier]
  by_cases ha : hasAddressFields r <;>
    simp [ha, decodeIdentifier_frame, decodeAddress_enc, jlookup_setKey_same,
          jlookup_setKey_ne, decodeBirthDate_frame, decodeGender_frame,
          decodeTelecom_frame, decodeName_frame, decodeActive_frame, jlookup]

theorem dec_enc_address_line (r : Patient) :
    jlookup (to_internal_value (to_representation r)) "address_line" =
      if hasAddressFields r then some (JVal.jarr (r.address_line.map JVal.jstr))
      else none := by
  simp only [to_internal_value, repr_active, repr_name, repr_telecom, repr_gender,
             repr_birthDate, repr_address, repr_identifier]
  by_cases ha : hasAddressFields r <;>
    simp [ha, decodeIdentifier_frame, decodeAddress_enc, jlookup_setKey_same,
          jlookup_setKey_ne, decodeBirthDate_frame, decodeGender_frame,
          decodeTelecom_frame, decodeName_frame, decodeActive_frame, jlookup]

theorem dec_enc_address_city (r : Patient) :
    jlookup (to_internal_value (to_representation r)) "address_city" =
      if hasAddressFields r then some (JVal.jstr r.address_city) else none := by
  simp only [to_internal_value, repr_active, repr_name, repr_telecom, repr_gender,
             repr_birthDate, repr_address, repr_identifier]
  by_cases ha : hasAddressFields r <;>
    simp [ha, decodeIdentifier_frame, decodeAddress_enc, jlookup_setKey_same,
          jlookup_setKey_ne, decodeBirthDate_frame, decodeGender_frame,
          decodeTelecom_frame, decodeName_frame, decodeActive_frame, jlookup]

theorem dec_enc_address_district (r : Patient) :
    jlookup (to_internal_value (to_representation r)) "address_district" =
      if hasAddressFields r then some (JVal.jstr r.address_district) else none := by
  simp only [to_internal_value, repr_active, repr_name, repr_telecom, repr_gender,
             repr_birthDate, repr_address, repr_identifier]
  by_cases ha : hasAddressFields r <;>
    simp [ha, decodeIdentifier_frame, decodeAddress_enc, jlookup_setKey_same,
          jlookup_setKey_ne, decodeBirthDate_frame, decodeGender_frame,
          decodeTelecom_frame, decodeName_frame, decodeActive_frame, jlookup]

theorem dec_enc_address_state (r : Patient) :
    jlookup (to_internal_value (to_representation r)) "address_state" =
      if hasAddressFields r then some (JVal.jstr r.address_state) else none := by
  simp only [to_internal_value, repr_active, repr_name, repr_telecom, repr_gender,
             repr_birthDate, repr_address, repr_identifier]
  by_cases ha : hasAddressFields r <;>
    simp [ha, decodeIdentifier_frame, decodeAddress_enc, jlookup_setKey_same,
          jlookup_setKey_ne, decodeBirthDate_frame, decodeGender_frame,
          decodeTelecom_frame, decodeName_frame, decodeActive_frame, jlookup]

theorem dec_enc_address_postal_code (r : Patient) :
    jlookup (to_internal_value (to_representation r)) "address_postal_code" =
      if hasAddressFields r then some (JVal.jstr r.address_postal_code) else none := by
  simp only [to_internal_value, repr_active, repr_name, repr_telecom, repr_gender,
             repr_birthDate, repr_address, repr_identifier]
  by_cases ha : hasAddressFields r <;>
    simp [ha, decodeIdentifier_frame, decodeAddress_enc, jlookup_setKey_same,
          jlookup_setKey_ne, decodeBirthDate_frame, decodeGender_frame,
          decodeTelecom_frame, decodeName_frame, decodeActive_frame, jlookup]

theorem dec_enc_address_country (r : Patient) :
    jlookup (to_internal_value (to_representation r)) "address_country" =
      if hasAddressFields r then some (JVal.jstr r.address_country) else none := by
  simp only [to_internal_value, repr_active, repr_name, repr_telecom, repr_gender,
             repr_birthDate, repr_address, repr_identifier]
  by_cases ha : hasAddressFields r <;>
    simp [ha, decodeIdentifier_frame, decodeAddress_enc, jlookup_setKey_same,
          jlookup_setKey_ne, decodeBirthDate_frame, decodeGender_frame,
          decodeTelecom_frame, decodeName_frame, decodeActive_frame, jlookup]

theorem dec_enc_identifier_use (r : Patient) :
    jlookup (to_internal_value (to_representation r)) "identifier_use" =
      if r.identifier_value = "" then none else some (JVal.jstr r.identifier_use) := by
  simp only [to_internal_value, repr_active, repr_name, repr_telecom, repr_gender,
             repr_birthDate, repr_address, repr_identifier]
  by_cases hi : r.identifier_value = "" <;>
    simp [hi, decodeIdentifier_enc, jlookup_setKey_same, jlookup_setKey_ne,
          decodeAddress_frame, decodeBirthDate_frame, decodeGender_frame,
          decodeTelecom_frame, decodeName_frame, decodeActive_frame, jlookup]

theorem dec_enc_identifier_system (r : Patient) :
    jlookup (to_internal_value (to_representation r)) "identifier_system" =
      if r.identifier_value = "" then none
      else some (JVal.jstr r.identifier_system) := by
  simp only [to_internal_value, repr_active, repr_name, repr_telecom, repr_gender,
             repr_birthDate, repr_address, repr_identifier]
  by_cases hi : r.identifier_value = "" <;>
    simp [hi, decodeIdentifier_enc, jlookup_setKey_same, jlookup_setKey_ne,
          decodeAddress_frame, decodeBirthDate_frame, decodeGender_frame,
          decodeTelecom_frame, decodeName_frame, decodeActive_frame, jlookup]

theorem dec_enc_identifier_value (r : Patient) :
    jlookup (to_internal_value (to_representation r)) "identifier_value" =
      if r.identifier_value = "" then none
      else some (JVal.jstr r.identifier_value) := by
  simp only [to_internal_value, repr_active, repr_name, repr_telecom, repr_gender,
             repr_birthDate, repr_address, repr_identifier]
  by_cases hi : r.identifier_value = "" <;>
    simp [hi, decodeIdentifier_enc, jlookup_setKey_same, jlookup_setKey_ne,
          decodeAddress_frame, decodeBirthDate_frame, decodeGender_frame,
          decodeTelecom_frame, decodeName_frame, decodeActive_frame, jlookup]

attribute [ext] Patient

theorem asStrings_map_jstr (l : List String) :
    asStrings (l.map JVal.jstr) = some l := by
  induction l with
  | nil => rfl
  | cons x xs ih => simp [asStrings, JVal.asString, ih]

/-- C1: decoding the FHIR document produced by encoding a record and merging
the decoded partial field set back onto the record reproduces the record
exactly (in particular up to the fields that never travel on the wire,
`created_at`/`updated_at`, which the merge does not touch). -/
theorem encode_decode_merge_round_trip (r : Patient) :
    applyPartial r (to_internal_value (to_representation r)) = r := by
  apply Patient.ext <;>
    simp only [applyPartial, dec_enc_active, dec_enc_name_use, dec_enc_family_name,
      dec_enc_given_names, dec_enc_prefixVal, dec_enc_suffix, dec_enc_telecom_phone,
      dec_enc_telecom_email, dec_enc_gender, dec_enc_birth_date, dec_enc_address_use,
      dec_enc_address_line, dec_enc_address_city, dec_enc_address_district,
      dec_enc_address_state, dec_enc_address_postal_code, dec_enc_address_country,
      dec_enc_identifier_use, dec_enc_identifier_system, dec_enc_identifier_value] <;>
    (try split) <;>
    simp [JVal.asString, JVal.asBool, JVal.asStringList, asStrings_map_jstr]

/-! ## Absent top-level keys produce no internal bindings -/

theorem decode_absent_active (data : List (String × JVal))
    (h : jlookup data "active" = none) :
    jlookup (to_internal_value data) "active" = none := by
  simp only [to_internal_value, h]
  simp [decodeIdentifier_frame, decodeAddress_frame, decodeBirthDate_frame,
        decodeGender_frame, decodeTelecom_frame, decodeName_frame, decodeActive,
        jlookup]

theorem decode_absent_name (data : List (String × JVal))
    (h : jlookup data "name" = none) :
    jlookup (to_internal_value data) "name_use" = none ∧
    jlookup (to_internal_value data) "family_name" = none ∧
    jlookup (to_internal_value data) "given_names" = none ∧
    jlookup (to_internal_value data) "prefix" = none ∧
    jlookup (to_internal_value data) "suffix" = none := by
  refine ⟨?_, ?_, ?_, ?_, ?_⟩ <;>
    · simp only [to_internal_value, h]
      simp [decodeIdentifier_frame, decodeAddress_frame, decodeBirthDate_frame,
            decodeGender_frame, decodeTelecom_frame, decodeName, decodeActive_frame,
            jlookup]

theorem decode_absent_telecom (data : List (String × JVal))
    (h : jlookup data "telecom" = none) :
    jlookup (to_internal_value data) "telecom_phone" = none ∧
    jlookup (to_internal_value data) "telecom_email" = none := by
  refine ⟨?_, ?_⟩ <;>
    · simp only [to_internal_value, h]
      simp [decodeIdentifier_frame, decodeAddress_frame, decodeBirthDate_frame,
            decodeGender_frame, decodeTelecom, decodeName_frame, decodeActive_frame,
            jlookup]

theorem decode_absent_gender (data : List (String × JVal))
    (h : jlookup data "gender" = none) :
    jlookup (to_internal_value data) "gender" = none := by
  simp only [to_internal_value, h]
  simp [decodeIdentifier_frame, decodeAddress_frame, decodeBirthDate_frame,
        decodeGender, decodeTelecom_frame, decodeName_frame, decodeActive_frame,
        jlookup]

theorem decode_absent_birthDate (data : List (String × JVal))
    (h : jlookup data "birthDate" = none) :
    jlookup (to_internal_value data) "birth_date" = none := by
  simp only [to_internal_value, h]
  simp [decodeIdentifier_frame, decodeAddress_frame, decodeBirthDate,
        decodeGender_frame, decodeTelecom_frame, decodeName_frame, decodeActive_frame,
        jlookup]

theorem decode_absent_address (data : List (String × JVal))
    (h : jlookup data "address" = none) :
    jlookup (to_internal_value data) "address_use" = none ∧
    jlookup (to_internal_value data) "address_line" = none ∧
    jlookup (to_internal_value data) "address_city" = none ∧
    jlookup (to_internal_value data) "address_district" = none ∧
    jlookup (to_internal_value data) "address_state" = none ∧
    jlookup (to_internal_value data) "address_postal_code" = none ∧
    jlookup (to_internal_value data) "address_country" = none := by
  refine ⟨?_, ?_, ?_, ?_, ?_, ?_, ?_⟩ <;>
    · simp only [to_internal_value, h]
      simp [decodeIdentifier_frame, decodeAddress, decodeBirthDate_frame,
            decodeGender_frame, decodeTelecom_frame, decodeName_frame,
            decodeActive_frame, jlookup]

theorem decode_absent_identifier (data : List (String × JVal))
    (h : jlookup data "identifier" = none) :
    jlookup (to_internal_value data) "identifier_use" = none ∧
    jlookup (to_internal_value data) "identifier_system" = none ∧
    jlookup (to_internal_value data) "identifier_value" = none := by
  refine ⟨?_, ?_, ?_⟩ <;>
    · simp only [to_internal_value, h]
      simp [decodeIdentifier, decodeAddress_frame, decodeBirthDate_frame,
            decodeGender_frame, decodeTelecom_frame, decodeName_frame,
            decodeActive_frame, jlookup]

/-- C4: a top-level FHIR key absent from a partial update document leaves the
corresponding internal field(s) of the record unchanged by the update's
decode-and-merge (`to_internal_value` + partial save, `views.py` 261-263). -/
theorem update_absent_keys_preserve_fields (r : Patient) (data : List (String × JVal)) :
    (jlookup data "active" = none →
      (applyPartial r (to_internal_value data)).active = r.active) ∧
    (jlookup data "name" = none →
      (applyPartial r (to_internal_value data)).name_use = r.name_use ∧
      (applyPartial r (to_internal_value data)).family_name = r.family_name ∧
      (applyPartial r (to_internal_value data)).given_names = r.given_names ∧
      (applyPartial r (to_internal_value data)).namePrefix = r.namePrefix ∧
      (applyPartial r (to_internal_value data)).nameSuffix = r.nameSuffix) ∧
    (jlookup data "telecom" = none →
      (applyPartial r (to_internal_value data)).telecom_phone = r.telecom_phone ∧
      (applyPartial r (to_internal_value data)).telecom_email = r.telecom_email) ∧
    (jlookup data "gender" = none →
      (applyPartial r (to_internal_value data)).gender = r.gender) ∧
    (jlookup data "birthDate" = none →
      (applyPartial r (to_internal_value data)).birth_date = r.birth_date) ∧
    (jlookup data "address" = none →
      (applyPartial r (to_internal_value data)).address_use = r.address_use ∧
      (applyPartial r (to_internal_value data)).address_line = r.address_line ∧
      (applyPartial r (to_internal_value data)).address_city = r.address_city ∧
      (applyPartial r (to_internal_value data)).address_district = r.address_district ∧
      (applyPartial r (to_internal_value data)).address_state = r.address_state ∧
      (applyPartial r (to_internal_value data)).address_postal_code = r.address_postal_code ∧
      (applyPartial r (to_internal_value data)).address_country = r.address_country) ∧
    (jlookup data "identifier" = none →
      (applyPartial r (to_internal_value data)).identifier_use = r.identifier_use ∧
      (applyPartial r (to_internal_value data)).identifier_system = r.identifier_system ∧
      (applyPartial r (to_internal_value data)).identifier_value = r.identifier_value) := by
  refine ⟨fun h => ?_, fun h => ?_, fun h => ?_, fun h => ?_, fun h => ?_,
          fun h => ?_, fun h => ?_⟩
  · simp [applyPartial, decode_absent_active data h]
  · obtain ⟨h1, h2, h3, h4, h5⟩ := decode_absent_name data h
    exact ⟨by simp [applyPartial, h1], by simp [applyPartial, h2],
           by simp [applyPartial, h3], by simp [applyPartial, h4],
           by simp [applyPartial, h5]⟩
  · obtain ⟨h1, h2⟩ := decode_absent_telecom data h
    exact ⟨by simp [applyPartial, h1], by simp [applyPartial, h2]⟩
  · simp [applyPartial, decode_absent_gender data h]
  · simp [applyPartial, decode_absent_birthDate data h]
  · obtain ⟨h1, h2, h3, h4, h5, h6, h7⟩ := decode_absent_address data h
    exact ⟨by simp [applyPartial, h1], by simp [applyPartial, h2],
           by simp [applyPartial, h3], by simp [applyPartial, h4],
           by simp [applyPartial, h5], by simp [applyPartial, h6],
           by simp [applyPartial, h7]⟩
  · obtain ⟨h1, h2, h3⟩ := decode_absent_identifier data h
    exact ⟨by simp [applyPartial, h1], by simp [applyPartial, h2],
           by simp [applyPartial, h3]⟩

/-- A fully populated sample record (mirrors the repository's example data). -/
def sampleRecord : Patient :=
  { id := "11111111-1111-1111-1111-111111111111", active := true,
    name_use := "official", family_name := "Doe", given_names := ["John", "Michael"],
    namePrefix := "Mr.", nameSuffix := "", telecom_phone := "+1-555-123-4567",
    telecom_email := "john.doe@example.com", gender := "male",
    birth_date := "1990-05-15", address_use := "home",
    address_line := ["123 Main St"], address_city := "New York",
    address_district := "", address_state := "NY", address_postal_code := "10001",
    address_country := "USA", identifier_use := "official",
    identifier_system := "http://hospital.example.org/patients",
    identifier_value := "12345", created_at := 1, updated_at := 1 }

/-- A record whose only non-empty address sub-field is `address_district`. -/
def districtOnlyRecord : Patient :=
  { id := "22222222-2222-2222-2222-222222222222", active := true,
    name_use := "usual", family_name := "Doe", given_names := ["Jan"],
    namePrefix := "", nameSuffix := "", telecom_phone := "", telecom_email := "",
    gender := "female", birth_date := "1992-01-01", address_use := "",
    address_line := [], address_city := "", address_district := "Centrum",
    address_state := "", address_postal_code := "", address_country := "",
    identifier_use := "", identifier_system := "", identifier_value := "",
    created_at := 0, updated_at := 0 }

/-- C2: evaluation of the encoder at a record whose only non-empty address
sub-field is `address_district`.  The claim (and the spec) require an address
entry carrying `district`; the code's presence guard (`serializer.py` line
98) omits `address_district`, so the encoded `address` array is empty and
the district value is dropped from the wire. -/
theorem encode_district_only_address_dropped :
    districtOnlyRecord.address_district = "Centrum" ∧
    districtOnlyRecord.address_use = "" ∧
    districtOnlyRecord.address_line = [] ∧
    districtOnlyRecord.address_city = "" ∧
    districtOnlyRecord.address_state = "" ∧
    districtOnlyRecord.address_postal_code = "" ∧
    districtOnlyRecord.address_country = "" ∧
    jlookup (to_representation districtOnlyRecord) "address" =
      some (JVal.jarr []) := by
  refine ⟨rfl, rfl, rfl, rfl, rfl, rfl, rfl, ?_⟩
  simp [to_representation, jlookup, addressList, hasAddressFields, districtOnlyRecord]

/-- C9: the encoded document always carries the keys `resourceType`, `id`,
`active`, `name`, `telecom`, `gender`, `birthDate`, `address` and
`identifier`; `name` is a one-element array, and `telecom`, `address`,
`identifier` are (possibly empty) arrays — empty nested groups appear as
empty arrays, never as absent keys. -/
theorem encode_always_emits_all_keys (r : Patient) :
    jlookup (to_representation r) "resourceType" = some (JVal.jstr "Patient") ∧
    jlookup (to_representation r) "id" = some (JVal.jstr r.id) ∧
    jlookup (to_representation r) "active" = some (JVal.jbool r.active) ∧
    (∃ x, jlookup (to_representation r) "name" = some (JVal.jarr [x])) ∧
    (∃ l, jlookup (to_representation r) "telecom" = some (JVal.jarr l)) ∧
    jlookup (to_representation r) "gender" = some (JVal.jstr r.gender) ∧
    jlookup (to_representation r) "birthDate" = some (JVal.jstr r.birth_date) ∧
    (∃ l, jlookup (to_representation r) "address" = some (JVal.jarr l)) ∧
    (∃ l, jlookup (to_representation r) "identifier" = some (JVal.jarr l)) :=
  ⟨repr_resourceType r, repr_id r, repr_active r, ⟨_, repr_name r⟩,
   ⟨_, repr_telecom r⟩, repr_gender r, repr_birthDate r, ⟨_, repr_address r⟩,
   ⟨_, repr_identifier r⟩⟩

/-- C6: the encoded `telecom` array holds a `{system: "phone", value, use:
"home"}` entry iff `telecom_phone` is set and an email entry iff
`telecom_email` is set, phone before email; both empty gives the empty
array, exactly one set gives a one-entry array with the matching system. -/
theorem encode_telecom_cases (r : Patient) :
    jlookup (to_representation r) "telecom" = some (JVal.jarr (telecomList r)) ∧
    (r.telecom_phone = "" → r.telecom_email = "" → telecomList r = []) ∧
    (r.telecom_phone ≠ "" → r.telecom_email = "" →
      telecomList r =
        [JVal.jobj [("system", JVal.jstr "phone"), ("value", JVal.jstr r.telecom_phone),
                    ("use", JVal.jstr "home")]]) ∧
    (r.telecom_phone = "" → r.telecom_email ≠ "" →
      telecomList r =
        [JVal.jobj [("system", JVal.jstr "email"), ("value", JVal.jstr r.telecom_email),
                    ("use", JVal.jstr "home")]]) ∧
    (r.telecom_phone ≠ "" → r.telecom_email ≠ "" →
      telecomList r =
        [JVal.jobj [("system", JVal.jstr "phone"), ("value", JVal.jstr r.telecom_phone),
                    ("use", JVal.jstr "home")],
         JVal.jobj [("system", JVal.jstr "email"), ("value", JVal.jstr r.telecom_email),
                    ("use", JVal.jstr "home")]]) := by
  refine ⟨repr_telecom r, ?_, ?_, ?_, ?_⟩ <;> intro h1 h2 <;> simp [telecomList, h1, h2]

theorem encode_telecom_cases_witness :
    telecomList sampleRecord =
      [JVal.jobj [("system", JVal.jstr "phone"),
                  ("value", JVal.jstr "+1-555-123-4567"),
                  ("use", JVal.jstr "home")],
       JVal.jobj [("system", JVal.jstr "email"),
                  ("value", JVal.jstr "john.doe@example.com"),
                  ("use", JVal.jstr "home")]] ∧
    telecomList districtOnlyRecord = [] := by
  refine ⟨?_, ?_⟩
  · exact (encode_telecom_cases sampleRecord).2.2.2.2 (by decide) (by decide)
  · exact (encode_telecom_cases districtOnlyRecord).2.1 rfl rfl

theorem update_absent_keys_preserve_fields_witness :
    (applyPartial sampleRecord (to_internal_value [])).active = sampleRecord.active ∧
    (applyPartial sampleRecord (to_internal_value [])).name_use = sampleRecord.name_use ∧
    (applyPartial sampleRecord (to_internal_value [])).telecom_phone = sampleRecord.telecom_phone ∧
    (applyPartial sampleRecord (to_internal_value [])).gender = sampleRecord.gender ∧
    (applyPartial sampleRecord (to_internal_value [])).birth_date = sampleRecord.birth_date ∧
    (applyPartial sampleRecord (to_internal_value [])).address_city = sampleRecord.address_city ∧
    (applyPartial sampleRecord (to_internal_value [])).identifier_value = sampleRecord.identifier_value := by
  have h := update_absent_keys_preserve_fields sampleRecord []
  exact ⟨h.1 rfl, (h.2.1 rfl).1, (h.2.2.1 rfl).1, h.2.2.2.1 rfl, h.2.2.2.2.1 rfl,
         (h.2.2.2.2.2.1 rfl).2.2.1, (h.2.2.2.2.2.2 rfl).2.2⟩

theorem validateOk_error (s : String) : validateOk (.error s) = false := rfl

theorem validateOk_ite (c : Prop) [Decidable c]
    (e1 e2 : Except String (List (String × JVal))) :
    validateOk (if c then e1 else e2) = if c then validateOk e1 else validateOk e2 := by
  split <;> rfl

/-- C5: validation fails whenever the `name` array is empty or absent,
whenever `gender` is absent, and whenever `birthDate` is absent — each
condition alone suffices; a structurally well-formed document with a
non-empty `name`, a `gender` and a `birthDate` is returned (with
`resourceType` forced to `"Patient"`) without error. -/
theorem validate_patient_required_fields (data : List (String × JVal)) :
    ((jlookup data "name" = none ∨ jlookup data "name" = some (JVal.jarr [])) →
      validateOk (validate_patient data) = false) ∧
    (jlookup data "gender" = none → validateOk (validate_patient data) = false) ∧
    (jlookup data "birthDate" = none → validateOk (validate_patient data) = false) ∧
    (isPatientShape (setKey data "resourceType" (JVal.jstr "Patient")) = true →
      (∃ x xs, jlookup data "name" = some (JVal.jarr (x :: xs))) →
      (jlookup data "gender").isSome →
      (jlookup data "birthDate").isSome →
      validate_patient data = .ok (setKey data "resourceType" (JVal.jstr "Patient"))) := by
  have hname : jlookup (setKey data "resourceType" (JVal.jstr "Patient")) "name" =
      jlookup data "name" := jlookup_setKey_ne data "name" "resourceType" _ (by decide)
  have hgender : jlookup (setKey data "resourceType" (JVal.jstr "Patient")) "gender" =
      jlookup data "gender" := jlookup_setKey_ne data "gender" "resourceType" _ (by decide)
  have hbirth : jlookup (setKey data "resourceType" (JVal.jstr "Patient")) "birthDate" =
      jlookup data "birthDate" := jlookup_setKey_ne data "birthDate" "resourceType" _ (by decide)
  refine ⟨?_, ?_, ?_, ?_⟩
  · rintro (h | h) <;>
      simp [validate_patient, hname, h, nameFalsy, validateOk_ite, validateOk_error]
  · intro h
    simp [validate_patient, hname, hgender, h, validateOk_ite, validateOk_error]
  · intro h
    simp [validate_patient, hname, hgender, hbirth, h, validateOk_ite, validateOk_error]
  · rintro hshape ⟨x, xs, hn⟩ hg hb
    obtain ⟨g, hg'⟩ := Option.isSome_iff_exists.mp hg
    obtain ⟨b, hb'⟩ := Option.isSome_iff_exists.mp hb
    simp [validate_patient, hshape, hname, hn, nameFalsy, hgender, hbirth, hg', hb']

/-- A well-formed create document with name, gender and birthDate present. -/
def goodDoc : List (String × JVal) :=
  [("name", JVal.jarr [JVal.jobj [("use", JVal.jstr "official"),
                                  ("family", JVal.jstr "Doe"),
                                  ("given", JVal.jarr [JVal.jstr "John"])]]),
   ("gender", JVal.jstr "male"),
   ("birthDate", JVal.jstr "1990-05-15")]

/-- `goodDoc` without its `name` key. -/
def docNoName : List (String × JVal) :=
  [("gender", JVal.jstr "male"), ("birthDate", JVal.jstr "1990-05-15")]

/-- `goodDoc` with an empty `name` array. -/
def docEmptyName : List (String × JVal) :=
  [("name", JVal.jarr []), ("gender", JVal.jstr "male"),
   ("birthDate", JVal.jstr "1990-05-15")]

/-- `goodDoc` without its `gender` key. -/
def docNoGender : List (String × JVal) :=
  [("name", JVal.jarr [JVal.jobj [("family", JVal.jstr "Doe")]]),
   ("birthDate", JVal.jstr "1990-05-15")]

/-- `goodDoc` without its `birthDate` key. -/
def docNoBirthDate : List (String × JVal) :=
  [("name", JVal.jarr [JVal.jobj [("family", JVal.jstr "Doe")]]),
   ("gender", JVal.jstr "male")]

theorem validate_patient_required_fields_witness :
    validateOk (validate_patient docNoName) = false ∧
    validateOk (validate_patient docEmptyName) = false ∧
    validateOk (validate_patient docNoGender) = false ∧
    validateOk (validate_patient docNoBirthDate) = false ∧
    validate_patient goodDoc =
      .ok (setKey goodDoc "resourceType" (JVal.jstr "Patient")) := by
  refine ⟨(validate_patient_required_fields docNoName).1 (Or.inl rfl),
          (validate_patient_required_fields docEmptyName).1 (Or.inr rfl),
          (validate_patient_required_fields docNoGender).2.1 rfl,
          (validate_patient_required_fields docNoBirthDate).2.2.1 rfl,
          (validate_patient_required_fields goodDoc).2.2.2 (by decide)
            ⟨_, _, rfl⟩ rfl rfl⟩

instance : IsTotal Patient (fun a b => b.created_at ≤ a.created_at) :=
  ⟨fun a b => Nat.le_total b.created_at a.created_at⟩

instance : IsTrans Patient (fun a b => b.created_at ≤ a.created_at) :=
  ⟨fun _ _ _ hab hbc => Nat.le_trans hbc hab⟩

/-- C8: the list operation returns 200 with a Bundle whose `total` is the
store size and equals the length of `entry`, whose entries encode the stored
records in newest-created-first order (a sorted permutation of the store);
an empty store gives `total` 0 and an empty `entry` array. -/
theorem list_patients_bundle_spec (store : List Patient) :
    (list_patients store).status = 200 ∧
    (list_patients store).body = some (JVal.jobj
      [("resourceType", JVal.jstr "Bundle"),
       ("id", JVal.jstr "patient-search-results"),
       ("type", JVal.jstr "searchset"),
       ("total", JVal.jnat store.length),
       ("entry", JVal.jarr ((fetchAll store).map fun p =>
          JVal.jobj [("resource", JVal.jobj (to_representation p))]))]) ∧
    ((fetchAll store).map fun p =>
        JVal.jobj [("resource", JVal.jobj (to_representation p))]).length =
      store.length ∧
    List.Perm (fetchAll store) store ∧
    List.Sorted (fun a b => b.created_at ≤ a.created_at) (fetchAll store) ∧
    (list_patients []).body = some (JVal.jobj
      [("resourceType", JVal.jstr "Bundle"),
       ("id", JVal.jstr "patient-search-results"),
       ("type", JVal.jstr "searchset"),
       ("total", JVal.jnat 0),
       ("entry", JVal.jarr [])]) := by
  refine ⟨rfl, rfl, ?_, ?_, ?_, rfl⟩
  · rw [List.length_map]
    exact (List.perm_insertionSort _ store).length_eq
  · exact List.perm_insertionSort _ store
  · exact List.sorted_insertionSort _ store

/-- A document whose telecom array holds two entries with system `phone`. -/
def twoPhonesDoc : List (String × JVal) :=
  [("telecom", JVal.jarr
     [JVal.jobj [("system", JVal.jstr "phone"), ("value", JVal.jstr "111")],
      JVal.jobj [("system", JVal.jstr "phone"), ("value", JVal.jstr "222")]])]

/-- C3 counterexample: on a telecom array with two `phone` entries the
decoder's loop lets the LAST entry win (`serializer.py` 153-157 iterates
over every entry), so the decoded `telecom_phone` is `"222"`, not the first
entry's `"111"` as the claim states. -/
theorem decode_two_phone_entries_last_wins :
    jlookup (to_internal_value twoPhonesDoc) "telecom_phone" =
      some (JVal.jstr "222") ∧
    jlookup (to_internal_value twoPhonesDoc) "telecom_phone" ≠
      some (JVal.jstr "111") := by
  refine ⟨rfl, ?_⟩
  intro h
  rw [show jlookup (to_internal_value twoPhonesDoc) "telecom_phone" =
        some (JVal.jstr "222") from rfl] at h
  simp at h

/-- C3 amended: the decoder reads at most the first element of the `name`,
`address` and `identifier` arrays (later elements are ignored), but it
iterates over every `telecom` entry, so among entries sharing a `system` the
LAST one's value is kept. -/
theorem decode_reads_first_element_except_telecom
    (data : List (String × JVal)) (x : JVal) (rest : List JVal)
    (m : List (String × JVal)) (ts : List JVal) (v : JVal) :
    to_internal_value (("name", JVal.jarr (x :: rest)) :: data) =
      to_internal_value (("name", JVal.jarr [x]) :: data) ∧
    to_internal_value (("address", JVal.jarr (x :: rest)) :: data) =
      to_internal_value (("address", JVal.jarr [x]) :: data) ∧
    to_internal_value (("identifier", JVal.jarr (x :: rest)) :: data) =
      to_internal_value (("identifier", JVal.jarr [x]) :: data) ∧
    jlookup (List.foldl telecomStep m
        (ts ++ [JVal.jobj [("system", JVal.jstr "phone"), ("value", v)]]))
      "telecom_phone" = some v := by
  refine ⟨?_, ?_, ?_, ?_⟩
  · simp [to_internal_value, jlookup, decodeName, asArr]
  · simp [to_internal_value, jlookup, decodeAddress, asArr]
  · simp [to_internal_value, jlookup, decodeIdentifier, asArr]
  · rw [List.foldl_append]
    simp [telecomStep, asObjL, jlookup, objGet, jlookup_setKey_same]

/-! ## Decoder blocks at a generic first element -/

theorem decodeName_cons_name_use (n : List (String × JVal)) (nrest : List JVal)
    (m : List (String × JVal)) :
    jlookup (decodeName (some (JVal.jarr (JVal.jobj n :: nrest))) m) "name_use" =
      some (objGet n "use" (JVal.jstr "usual")) := by
  simp only [decodeName, asArr, asObjL]
  repeat' split
  all_goals simp [jlookup_setKey_same, jlookup_setKey_ne]

theorem decodeName_cons_family (n : List (String × JVal)) (nrest : List JVal)
    (m : List (String × JVal)) :
    jlookup (decodeName (some (JVal.jarr (JVal.jobj n :: nrest))) m) "family_name" =
      some (objGet n "family" (JVal.jstr "")) := by
  simp only [decodeName, asArr, asObjL]
  repeat' split
  all_goals simp [jlookup_setKey_same, jlookup_setKey_ne]

theorem decodeName_cons_given (n : List (String × JVal)) (nrest : List JVal)
    (m : List (String × JVal)) :
    jlookup (decodeName (some (JVal.jarr (JVal.jobj n :: nrest))) m) "given_names" =
      some (objGet n "given" (JVal.jarr [])) := by
  simp only [decodeName, asArr, asObjL]
  repeat' split
  all_goals simp [jlookup_setKey_same, jlookup_setKey_ne]

theorem decodeName_cons_prefix_absent (n : List (String × JVal)) (nrest : List JVal)
    (m : List (String × JVal)) (h : jlookup n "prefix" = none) :
    jlookup (decodeName (some (JVal.jarr (JVal.jobj n :: nrest))) m) "prefix" =
      jlookup m "prefix" := by
  simp only [decodeName, asArr, asObjL, h]
  repeat' split
  all_goals simp [jlookup_setKey_ne]

theorem decodeName_cons_suffix_absent (n : List (String × JVal)) (nrest : List JVal)
    (m : List (String × JVal)) (h : jlookup n "suffix" = none) :
    jlookup (decodeName (some (JVal.jarr (JVal.jobj n :: nrest))) m) "suffix" =
      jlookup m "suffix" := by
  simp only [decodeName, asArr, asObjL, h]
  repeat' split
  all_goals simp [jlookup_setKey_ne]

theorem decodeAddress_cons (a : List (String × JVal)) (arest : List JVal)
    (m : List (String × JVal)) :
    decodeAddress (some (JVal.jarr (JVal.jobj a :: arest))) m =
      setKey (setKey (setKey (setKey (setKey (setKey (setKey m
        "address_use" (objGet a "use" (JVal.jstr "")))
        "address_line" (objGet a "line" (JVal.jarr [])))
        "address_city" (objGet a "city" (JVal.jstr "")))
        "address_district" (objGet a "district" (JVal.jstr "")))
        "address_state" (objGet a "state" (JVal.jstr "")))
        "address_postal_code" (objGet a "postalCode" (JVal.jstr "")))
        "address_country" (objGet a "country" (JVal.jstr "")) := by
  simp [decodeAddress, asArr, asObjL]

theorem decodeIdentifier_cons (i : List (String × JVal)) (irest : List JVal)
    (m : List (String × JVal)) :
    decodeIdentifier (some (JVal.jarr (JVal.jobj i :: irest))) m =
      setKey (setKey (setKey m
        "identifier_use" (objGet i "use" (JVal.jstr "")))
        "identifier_system" (objGet i "system" (JVal.jstr "")))
        "identifier_value" (objGet i "value" (JVal.jstr "")) := by
  simp [decodeIdentifier, asArr, asObjL]

/-- A document whose `name` array holds one empty object. -/
def emptyNameElemDoc : List (String × JVal) :=
  [("name", JVal.jarr [JVal.jobj []])]

/-- C10 counterexample: with `name` present and non-empty, the decoder
assigns `name_use`/`family_name`/`given_names` but does NOT assign `prefix`
or `suffix` when those sub-keys are absent (`serializer.py` 146-149), so a
record's existing prefix survives the merge instead of being reset to the
default. -/
theorem decode_empty_name_element_leaves_prefix_unset :
    jlookup (to_internal_value emptyNameElemDoc) "name_use" =
      some (JVal.jstr "usual") ∧
    jlookup (to_internal_value emptyNameElemDoc) "prefix" = none ∧
    jlookup (to_internal_value emptyNameElemDoc) "suffix" = none ∧
    (applyPartial sampleRecord (to_internal_value emptyNameElemDoc)).namePrefix =
      "Mr." :=
  ⟨rfl, rfl, rfl, rfl⟩

/-- C10 amended: a present non-empty `address` (resp. `identifier`) group
assigns all seven (resp. three) internal fields, defaulting absent
sub-keys, and a present non-empty `name` group assigns `name_use`,
`family_name` and `given_names` with defaults; but `prefix`/`suffix` are
assigned only when present, absent ones being left untouched. -/
theorem decode_group_subfield_defaults
    (data : List (String × JVal)) (n a i : List (String × JVal))
    (nrest arest irest : List JVal) :
    (jlookup data "name" = some (JVal.jarr (JVal.jobj n :: nrest)) →
      ((jlookup (to_internal_value data) "name_use").isSome ∧
       (jlookup (to_internal_value data) "family_name").isSome ∧
       (jlookup (to_internal_value data) "given_names").isSome) ∧
      (jlookup n "use" = none →
        jlookup (to_internal_value data) "name_use" = some (JVal.jstr "usual")) ∧
      (jlookup n "family" = none →
        jlookup (to_internal_value data) "family_name" = some (JVal.jstr "")) ∧
      (jlookup n "given" = none →
        jlookup (to_internal_value data) "given_names" = some (JVal.jarr [])) ∧
      (jlookup n "prefix" = none →
        jlookup (to_internal_value data) "prefix" = none) ∧
      (jlookup n "suffix" = none →
        jlookup (to_internal_value data) "suffix" = none)) ∧
    (jlookup data "address" = some (JVal.jarr (JVal.jobj a :: arest)) →
      ((jlookup (to_internal_value data) "address_use").isSome ∧
       (jlookup (to_internal_value data) "address_line").isSome ∧
       (jlookup (to_internal_value data) "address_city").isSome ∧
       (jlookup (to_internal_value data) "address_district").isSome ∧
       (jlookup (to_internal_value data) "address_state").isSome ∧
       (jlookup (to_internal_value data) "address_postal_code").isSome ∧
       (jlookup (to_internal_value data) "address_country").isSome) ∧
      (jlookup a "use" = none →
        jlookup (to_internal_value data) "address_use" = some (JVal.jstr "")) ∧
      (jlookup a "line" = none →
        jlookup (to_internal_value data) "address_line" = some (JVal.jarr [])) ∧
      (jlookup a "city" = none →
        jlookup (to_internal_value data) "address_city" = some (JVal.jstr "")) ∧
      (jlookup a "district" = none →
        jlookup (to_internal_value data) "address_district" = some (JVal.jstr "")) ∧
      (jlookup a "state" = none →
        jlookup (to_internal_value data) "address_state" = some (JVal.jstr "")) ∧
      (jlookup a "postalCode" = none →
        jlookup (to_internal_value data) "address_postal_code" = some (JVal.jstr "")) ∧
      (jlookup a "country" = none →
        jlookup (to_internal_value data) "address_country" = some (JVal.jstr ""))) ∧
    (jlookup data "identifier" = some (JVal.jarr (JVal.jobj i :: irest)) →
      ((jlookup (to_internal_value data) "identifier_use").isSome ∧
       (jlookup (to_internal_value data) "identifier_system").isSome ∧
       (jlookup (to_internal_value data) "identifier_value").isSome) ∧
      (jlookup i "use" = none →
        jlookup (to_internal_value data) "identifier_use" = some (JVal.jstr "")) ∧
      (jlookup i "system" = none →
        jlookup (to_internal_value data) "identifier_system" = some (JVal.jstr "")) ∧
      (jlookup i "value" = none →
        jlookup (to_internal_value data) "identifier_value" = some (JVal.jstr ""))) := by
  refine ⟨fun hn => ?_, fun ha => ?_, fun hi => ?_⟩
  · refine ⟨⟨?_, ?_, ?_⟩, fun h => ?_, fun h => ?_, fun h => ?_, fun h => ?_,
            fun h => ?_⟩ <;>
      · simp only [to_internal_value, hn]
        simp [decodeIdentifier_frame, decodeAddress_frame, decodeBirthDate_frame,
              decodeGender_frame, decodeTelecom_frame, decodeName_cons_name_use,
              decodeName_cons_family, decodeName_cons_given,
              decodeName_cons_prefix_absent, decodeName_cons_suffix_absent,
              decodeActive_frame, objGet, jlookup, *]
  · refine ⟨⟨?_, ?_, ?_, ?_, ?_, ?_, ?_⟩, fun h => ?_, fun h => ?_, fun h => ?_,
            fun h => ?_, fun h => ?_, fun h => ?_, fun h => ?_⟩ <;>
      · simp only [to_internal_value, ha]
        simp [decodeIdentifier_frame, decodeAddress_cons, jlookup_setKey_same,
              jlookup_setKey_ne, objGet, *]
  · refine ⟨⟨?_, ?_, ?_⟩, fun h => ?_, fun h => ?_, fun h => ?_⟩ <;>
      · simp only [to_internal_value, hi]
        simp [decodeIdentifier_cons, jlookup_setKey_same, jlookup_setKey_ne,
              objGet, *]

theorem decode_group_subfield_defaults_witness :
    jlookup (to_internal_value [("name", JVal.jarr [JVal.jobj []])]) "name_use" =
      some (JVal.jstr "usual") ∧
    jlookup (to_internal_value [("address", JVal.jarr [JVal.jobj []])])
      "address_district" = some (JVal.jstr "") ∧
    jlookup (to_internal_value [("identifier", JVal.jarr [JVal.jobj []])])
      "identifier_use" = some (JVal.jstr "") := by
  refine ⟨?_, ?_, ?_⟩
  · exact ((decode_group_subfield_defaults
      [("name", JVal.jarr [JVal.jobj []])] [] [] [] [] [] []).1 rfl).2.1 rfl
  · exact ((decode_group_subfield_defaults
      [("address", JVal.jarr [JVal.jobj []])] [] [] [] [] [] []).2.1 rfl).2.2.2.2.1 rfl
  · exact ((decode_group_subfield_defaults
      [("identifier", JVal.jarr [JVal.jobj []])] [] [] [] [] [] []).2.2 rfl).2.1 rfl

/-! ## Error body shapes of the handlers -/

theorem decode_no_resourceType (data : List (String × JVal)) :
    jlookup (to_internal_value data) "resourceType" = none := by
  simp [to_internal_value, decodeIdentifier_frame, decodeAddress_frame,
        decodeBirthDate_frame, decodeGender_frame, decodeTelecom_frame,
        decodeName_frame, decodeActive_frame, jlookup]

theorem jlookup_fieldErrors_none (m : List (String × JVal)) (k : String)
    (h : jlookup m k = none) : jlookup (fieldErrors m) k = none := by
  induction m with
  | nil => rfl
  | cons kv rest ih =>
    obtain ⟨k0, v0⟩ := kv
    by_cases hk : k0 = k
    · simp [jlookup, hk] at h
    · simp only [jlookup, if_neg hk] at h
      by_cases hv : validField k0 v0 <;>
        simp [fieldErrors, List.filter, hv, jlookup, hk, ih h] <;>
        simpa [fieldErrors] using ih h

theorem isOperationOutcome_coo (s c d : String) :
    isOperationOutcome (create_operation_outcome s c d) = true := by
  simp [isOperationOutcome, create_operation_outcome, jlookup]

/-- C7 counterexample: the two 400 responses the claim singles out are not
OperationOutcome documents.  Updating an existing record with an invalid
`gender` yields a 400 whose body is the raw serializer error dictionary
(`views.py` line 265, a direct `Response(serializer.errors, ...)` return
that never reaches the exception pipeline), and a malformed id yields a 400
whose body is `{"error": "Invalid patient ID format"}` (`views.py` 216-220,
266-270, 309-313, likewise direct returns). -/
theorem update_invalid_400_not_operation_outcome :
    (update_patient [sampleRecord] true "11111111-1111-1111-1111-111111111111"
        [("gender", JVal.jstr "invalid_gender")]).status = 400 ∧
    (update_patient [sampleRecord] true "11111111-1111-1111-1111-111111111111"
        [("gender", JVal.jstr "invalid_gender")]).body =
      some (JVal.jobj [("gender", JVal.jarr [JVal.jstr "invalid"])]) ∧
    isOperationOutcome (JVal.jobj [("gender", JVal.jarr [JVal.jstr "invalid"])]) =
      false ∧
    (get_patient [sampleRecord] false "not-a-uuid").status = 400 ∧
    (get_patient [sampleRecord] false "not-a-uuid").body =
      some (JVal.jobj [("error", JVal.jstr "Invalid patient ID format")]) ∧
    isOperationOutcome
      (JVal.jobj [("error", JVal.jstr "Invalid patient ID format")]) = false :=
  ⟨rfl, rfl, rfl, rfl, rfl, rfl⟩

/-- C7 amended: every 4xx body of the four handlers is an OperationOutcome —
the create handler's 400s wrap one directly and the not-found 404s of
get/update/delete are rewritten into one by `fhir_exception_handler`
(`therapieland/utils.py`) — except the two cases the counterexample
exhibits: the update handler's invalid-data 400 returns the raw field-error
dictionary and the malformed-id 400s return
`{"error": "Invalid patient ID format"}`, both direct returns that bypass
the exception pipeline and are not OperationOutcomes. -/
theorem error_response_shapes
    (data : List (String × JVal)) (newId : String) (now : Nat)
    (store : List Patient) (pid : String) :
    ((create_patient data newId now).status = 400 →
      ∃ j, (create_patient data newId now).body = some j ∧
        isOperationOutcome j = true) ∧
    (store.find? (fun r => r.id == pid) = none →
      get_patient store true pid = notFound404 ∧
      update_patient store true pid data = notFound404 ∧
      delete_patient store true pid = notFound404) ∧
    (∃ j, notFound404.body = some j ∧ isOperationOutcome j = true) ∧
    notFound404.status = 404 ∧
    ((update_patient store true pid data).status = 400 →
      ∃ j, (update_patient store true pid data).body = some j ∧
        isOperationOutcome j = false) ∧
    update_patient store false pid data =
      ⟨400, some (JVal.jobj [("error", JVal.jstr "Invalid patient ID format")])⟩ ∧
    get_patient store false pid =
      ⟨400, some (JVal.jobj [("error", JVal.jstr "Invalid patient ID format")])⟩ ∧
    delete_patient store false pid =
      ⟨400, some (JVal.jobj [("error", JVal.jstr "Invalid patient ID format")])⟩ ∧
    isOperationOutcome
      (JVal.jobj [("error", JVal.jstr "Invalid patient ID format")]) = false := by
  refine ⟨?_,
          fun h => ⟨by simp [get_patient, h], by simp [update_patient, h],
                    by simp [delete_patient, h]⟩,
          ⟨create_operation_outcome "error" "processing"
             "No Patient matches the given query.",
           rfl, isOperationOutcome_coo _ _ _⟩,
          rfl, ?_, rfl, rfl, rfl, rfl⟩
  · cases hv : validate_patient data with
    | error e =>
      intro _
      exact ⟨create_operation_outcome "error" "invalid" e,
             by simp [create_patient, hv], isOperationOutcome_coo _ _ _⟩
    | ok d =>
      simp only [create_patient, hv]
      by_cases hcv : createValid (to_internal_value data) = true
      · intro h
        simp [hcv] at h
      · intro _
        exact ⟨create_operation_outcome "error" "invalid"
                 (errorsString (fieldErrors (to_internal_value data))),
               by simp [hcv], isOperationOutcome_coo _ _ _⟩
  · simp only [update_patient, Bool.not_true, Bool.false_eq_true, if_false]
    cases hf : store.find? (fun r => r.id == pid) with
    | none =>
      intro h
      simp [notFound404, fhir_exception_handler] at h
    | some r =>
      intro h
      by_cases hpv : partialValid (to_internal_value data) = true
      · simp [hpv] at h
      · refine ⟨JVal.jobj (fieldErrors (to_internal_value data)), by simp [hpv], ?_⟩
        have hnone : jlookup (fieldErrors (to_internal_value data)) "resourceType" =
            none :=
          jlookup_fieldErrors_none _ _ (decode_no_resourceType data)
        simp [isOperationOutcome, hnone]

theorem error_response_shapes_witness :
    (∃ j, (create_patient docNoGender "pid-new" 0).body = some j ∧
       isOperationOutcome j = true) ∧
    get_patient [] true "no-such-id" = notFound404 ∧
    (∃ j, notFound404.body = some j ∧ isOperationOutcome j = true) ∧
    (∃ j, (update_patient [sampleRecord] true
        "11111111-1111-1111-1111-111111111111"
        [("gender", JVal.jstr "bad")]).body = some j ∧
       isOperationOutcome j = false) := by
  refine ⟨?_, ?_, ?_, ?_⟩
  · exact (error_response_shapes docNoGender "pid-new" 0 [] "p").1 rfl
  · exact ((error_response_shapes [] "pid-new" 0 [] "no-such-id").2.1 rfl).1
  · exact (error_response_shapes [] "pid-new" 0 [] "p").2.2.1
  · exact (error_response_shapes [("gender", JVal.jstr "bad")] "pid-new" 0
      [sampleRecord] "11111111-1111-1111-1111-111111111111").2.2.2.2.1 rfl
